import Mathlib

set_option maxRecDepth 100000

/-!
Shallow embedding of the risc0-labs/dkim DKIM signer/verifier core.

This file embeds `src/lib.rs` and `src/sign.rs` of the crate.  The crate
declares further modules (`parser`, `header`, `hash`, `canonicalization`,
`errors`, `result`, `public_key`) whose sources are not present under `src/`;
those are modelled from the specification, and every such definition carries a
doc comment saying so.  Machine integers are modelled as `Int`/`Nat`, byte
strings as `List Nat`, fallible code as `Except`/`Option`.
-/

/-- Error taxonomy of the crate.  Modelled from the spec: `errors.rs` is absent
from `src/`; the variants and payloads follow spec §7 and the uses in
`lib.rs`/`sign.rs`. -/
inductive DKIMError where
  | SignatureSyntaxError (msg : String)
  | SignatureMissingRequiredTag (name : String)
  | IncompatibleVersion
  | DomainMismatch
  | FromFieldNotSigned
  | UnsupportedQueryMethod
  | SignatureExpired
  | UnsupportedHashAlgorithm (msg : String)
  | BodyHashDidNotVerify
  | SignatureDidNotVerify
  | KeyUnavailable (msg : String)
  | KeyRevoked
  | FailedToSign (msg : String)
  | BuilderError (msg : String)
  | UnknownInternalError (msg : String)
  deriving DecidableEq, Repr

/-- Split a character list at every occurrence of a separator character
(structurally recursive so that it reduces in the kernel; the core
`String.splitOn` is defined by well-founded recursion and does not). -/
def splitOnChar (sep : Char) : List Char → List (List Char)
  | [] => [[]]
  | c :: rest =>
    match splitOnChar sep rest with
    | [] => [[c]]
    | h :: t => if c = sep then [] :: h :: t else (c :: h) :: t

/-- Split a character list at every CRLF. -/
def splitCRLF : List Char → List (List Char)
  | [] => [[]]
  | '\r' :: '\n' :: rest => [] :: splitCRLF rest
  | c :: rest =>
    match splitCRLF rest with
    | [] => [[c]]
    | h :: t => (c :: h) :: t

/-- Join character lists with a separator. -/
def joinWith (sep : List Char) : List (List Char) → List Char
  | [] => []
  | [x] => x
  | x :: y :: rest => x ++ sep ++ joinWith sep (y :: rest)

/-- ASCII lowering of a string (the model of Rust `str::to_lowercase`, whose
inputs here are ASCII). -/
def lowerStr (s : String) : String :=
  String.mk (s.toList.map Char.toLower)

/-- Bool test that `suffix` ends `s` (the model of Rust `str::ends_with`). -/
def strEndsWith (s suffix : String) : Bool :=
  s.toList.drop (s.toList.length - suffix.toList.length) = suffix.toList

/-- A single `name=value` tag of a DKIM tag list (`parser::Tag`). -/
structure Tag where
  name : String
  value : String
  deriving DecidableEq, Repr

/-- Whitespace character (WSP of RFC 6376): space or horizontal tab. -/
def isWSPchar (c : Char) : Bool := c = ' ' || c = '\t'

/-- Character that can occur in folding whitespace (WSP plus CR/LF). -/
def isFWSchar (c : Char) : Bool := c = ' ' || c = '\t' || c = '\r' || c = '\n'

/-- Valid tag-value character: `%x21-3A / %x3C-7E` (printable, no `;`). -/
def isVALCHAR (c : Char) : Bool :=
  (0x21 ≤ c.toNat && c.toNat ≤ 0x3A) || (0x3C ≤ c.toNat && c.toNat ≤ 0x7E)

/-- Tag-name continuation character: ALPHA / DIGIT / `_`. -/
def isTagNameChar (c : Char) : Bool := c.isAlphanum || c = '_'

/-- Drop folding whitespace from both ends of a character list. -/
def trimFWS (cs : List Char) : List Char :=
  ((cs.dropWhile isFWSchar).reverse.dropWhile isFWSchar).reverse

/-- Modelled from the spec (§4.1): one `tag-spec` of the tag-list grammar,
`[FWS] tag-name [FWS] "=" [FWS] tag-value [FWS]` (`parser.rs` is absent from
`src/`).  The folding whitespace separating the `tval` chunks of a value is
dropped entirely (the chunks are concatenated): the source's own test
`test_validate_email_header_ed25519` (lib.rs) feeds an `h=` value containing
FWS around the colons and still expects the later split on `:` to yield the
bare name `from`, which fixes this reading over the spec's
"collapsed into single spaces" wording. -/
def parseTagSpec (cs : List Char) : Option Tag :=
  let nameRaw := cs.takeWhile (fun c => c ≠ '=')
  match cs.dropWhile (fun c => c ≠ '=') with
  | [] => none
  | _ :: valueRaw =>
    match trimFWS nameRaw with
    | [] => none
    | n0 :: nrest =>
      let valueT := trimFWS valueRaw
      if n0.isAlpha && nrest.all isTagNameChar
          && valueT.all (fun c => isVALCHAR c || isFWSchar c) then
        some { name := String.mk (n0 :: nrest)
               value := String.mk (valueT.filter (fun c => ¬ isFWSchar c)) }
      else
        none

/-- Modelled from the spec (§4.1): `parser::tag_list`, the grammar
`tag-list = tag-spec *( ";" tag-spec ) [ ";" ]` applied to the raw value of a
`DKIM-Signature` header; `none` corresponds to the parse failing
(`SignatureSyntaxError` at the caller). -/
def tag_list (value : String) : Option (List Tag) :=
  let parts := splitOnChar ';' value.toList
  let parts :=
    match parts.getLast? with
    | some lastPart => if lastPart.all isFWSchar then parts.dropLast else parts
    | none => parts
  if parts.isEmpty then none
  else parts.mapM parseTagSpec

/-- Association-list model of the `IndexMap` used by `validate_header`:
inserting an existing key overwrites its value in place, a new key is
appended. -/
def insertTag (m : List (String × Tag)) (k : String) (t : Tag) : List (String × Tag) :=
  if m.any (fun p => p.1 = k) then m.map (fun p => if p.1 = k then (k, t) else p)
  else m ++ [(k, t)]

/-- `header::DKIMHeader`: the tag map plus the raw header value exactly as
received.  Modelled from the spec (§3, §4.4); `header.rs` is absent from
`src/`. -/
structure DKIMHeader where
  tags : List (String × Tag)
  raw_bytes : String
  deriving DecidableEq, Repr

/-- `DKIMHeader::get_tag`: value of the named tag, if present. -/
def DKIMHeader.get_tag (h : DKIMHeader) (name : String) : Option String :=
  (h.tags.find? (fun p => p.1 = name)).map (fun p => p.2.value)

/-- `DKIMHeader::get_required_tag`: as `get_tag`, for tags whose presence was
established beforehand (all call sites in `lib.rs` are guarded by the
required-tag check). -/
def DKIMHeader.get_required_tag (h : DKIMHeader) (name : String) : String :=
  (h.get_tag name).getD ""

/-- `header::REQUIRED_TAGS` (spec §3): the tags `validate_header` requires. -/
def REQUIRED_TAGS : List String := ["v", "a", "b", "bh", "d", "h", "s"]

/-- The `DKIMHeader` built by `validate_header` (lib.rs 140-147): fold the
parsed tags into the map, keep the raw value. -/
def buildDKIMHeader (tags : List Tag) (raw : String) : DKIMHeader :=
  { tags := tags.foldl (fun m t => insertTag m t.name t) []
    raw_bytes := raw }

/-- `SIGN_EXPIRATION_DRIFT_MINS` (lib.rs 48). -/
def SIGN_EXPIRATION_DRIFT_MINS : Int := 15

/-- Rust `str::parse::<i64>`: optional sign, one or more decimal digits,
value within the `i64` range. -/
def parseDecimalNat : List Char → Option Nat
  | [] => none
  | cs =>
    if cs.all Char.isDigit then
      some (cs.foldl (fun acc c => acc * 10 + (c.toNat - 48)) 0)
    else none

/-- Rust `str::parse::<i64>` on a string, yielding an `Int` in
`[-2^63, 2^63 - 1]`. -/
def parseI64 (s : String) : Option Int :=
  match s.toList with
  | '+' :: rest =>
    (parseDecimalNat rest).bind (fun n => if n ≤ 2 ^ 63 - 1 then some (n : Int) else none)
  | '-' :: rest =>
    (parseDecimalNat rest).bind (fun n => if n ≤ 2 ^ 63 then some (-(n : Int)) else none)
  | cs =>
    (parseDecimalNat cs).bind (fun n => if n ≤ 2 ^ 63 - 1 then some (n : Int) else none)

/-- Modelled from the spec (time feature): the range of Unix seconds accepted
by the external chrono `NaiveDateTime::from_timestamp_opt`; outside it the
call returns `None` and `validate_header` maps that to `SignatureExpired`.
The exact bounds are immaterial to the claims, which use small timestamps. -/
def timestampInRange (secs : Int) : Bool :=
  -8334601228800 ≤ secs && secs ≤ 8210266876799

/-- The `x=` expiration check of `validate_header` (lib.rs 190-203), time
feature enabled.  `now` is the current instant in nanoseconds since the Unix
epoch (chrono's `Utc::now().naive_utc()` carries sub-second precision; the
parsed expiration has none, and 15 minutes of drift are added to it). -/
def checkExpiration (now : Int) (header : DKIMHeader) : Except DKIMError DKIMHeader :=
  match header.get_tag "x" with
  | none => .ok header
  | some xs =>
    let secs := (parseI64 xs).getD 0
    if ¬ timestampInRange secs then .error .SignatureExpired
    else if now > (secs + 60 * SIGN_EXPIRATION_DRIFT_MINS) * 1000000000 then
      .error .SignatureExpired
    else .ok header

/-- The `q=` check of `validate_header` (lib.rs 178-182). -/
def checkQueryMethod (now : Int) (header : DKIMHeader) : Except DKIMError DKIMHeader :=
  match header.get_tag "q" with
  | some q => if q ≠ "dns/txt" then .error .UnsupportedQueryMethod
              else checkExpiration now header
  | none => checkExpiration now header

/-- The `h=` contains `from` check of `validate_header` (lib.rs 168-176). -/
def checkFromSigned (now : Int) (header : DKIMHeader) : Except DKIMError DKIMHeader :=
  let hval := header.get_required_tag "h"
  let headers := (splitOnChar ':' hval.toList).map (fun cs => lowerStr (String.mk cs))
  if ¬ headers.contains "from" then .error .FromFieldNotSigned
  else checkQueryMethod now header

/-- `validate_header` (lib.rs 123-206) after the tag-list parse: required-tag
presence (in `REQUIRED_TAGS` order), version, `i=`/`d=` relation (the raw
`i=` value must end with the raw `d=` value), `h=` contains `from`, `q=`,
and the `x=` expiration against `now` (nanoseconds since epoch). -/
def validate_header_tags (now : Int) (tags : List Tag) (raw : String) :
    Except DKIMError DKIMHeader :=
  match REQUIRED_TAGS.find? (fun r => (tags.find? (fun t => t.name = r)).isNone) with
  | some r => .error (.SignatureMissingRequiredTag r)
  | none =>
    let header := buildDKIMHeader tags raw
    if header.get_required_tag "v" ≠ "1" then .error .IncompatibleVersion
    else
      match header.get_tag "i" with
      | some user =>
        if ¬ strEndsWith user (header.get_required_tag "d") then .error .DomainMismatch
        else checkFromSigned now header
      | none => checkFromSigned now header

/-- `validate_header` (lib.rs 123-206) on the raw header value: parse the tag
list (`parser::tag_list`, modelled from the spec), then run the semantic
checks. -/
def validate_header (now : Int) (value : String) : Except DKIMError DKIMHeader :=
  match tag_list value with
  | none => .error (.SignatureSyntaxError "failed to parse the tag list")
  | some tags => validate_header_tags now tags value

/-- `canonicalization::Type` (spec §3): the two canonicalization modes.
Modelled from the spec; `canonicalization.rs` is absent from `src/`. -/
inductive CanonicalizationType where
  | Simple
  | Relaxed
  deriving DecidableEq, Repr

/-- `hash::HashAlgo` (spec §3).  Modelled from the spec; `hash.rs` is absent
from `src/`. -/
inductive HashAlgo where
  | RsaSha1
  | RsaSha256
  | Ed25519Sha256
  deriving DecidableEq, Repr

/-- Modelled from the spec (§3): `parser::parse_hash_algo`, mapping the `a=`
tag strings to `HashAlgo`. -/
def parse_hash_algo (s : String) : Except DKIMError HashAlgo :=
  if s = "rsa-sha1" then .ok .RsaSha1
  else if s = "rsa-sha256" then .ok .RsaSha256
  else if s = "ed25519-sha256" then .ok .Ed25519Sha256
  else .error (.UnsupportedHashAlgorithm s)

/-- Modelled from the spec (§3): one side of the `c=` tag. -/
def parseCanonSide (s : String) : Except DKIMError CanonicalizationType :=
  if s = "simple" then .ok .Simple
  else if s = "relaxed" then .ok .Relaxed
  else .error (.SignatureSyntaxError ("invalid canonicalization: " ++ s))

/-- Modelled from the spec (§3): `parser::parse_canonicalization`.  Absent
`c=` defaults to `simple/simple`; a bare single mode names the header side,
with `simple` for the body. -/
def parse_canonicalization (c : Option String) :
    Except DKIMError (CanonicalizationType × CanonicalizationType) :=
  match c with
  | none => .ok (.Simple, .Simple)
  | some s =>
    match (splitOnChar '/' s.toList).map String.mk with
    | [hs] =>
      match parseCanonSide hs with
      | .error e => .error e
      | .ok hc => .ok (hc, .Simple)
    | [hs, bs] =>
      match parseCanonSide hs, parseCanonSide bs with
      | .error e, _ => .error e
      | _, .error e => .error e
      | .ok hc, .ok bc => .ok (hc, bc)
    | _ => .error (.SignatureSyntaxError ("invalid canonicalization: " ++ s))

/-- The base64 alphabet of the standard engine. -/
def base64Alphabet : List Char :=
  "ABCDEFGHIJKLMNOPQRSTUVWXYZabcdefghijklmnopqrstuvwxyz0123456789+/".toList

/-- Index of a character in the standard base64 alphabet. -/
def base64Val (c : Char) : Option Nat :=
  base64Alphabet.indexOf? c

/-- Standard base64 with padding, decoding (the external base64 crate's
`general_purpose::STANDARD.decode`): groups of four symbols, `=` padding only
in the final group, non-canonical trailing bits rejected. -/
def base64DecodeCore : List Char → Option (List Nat)
  | [] => some []
  | [a, b, '=', '='] =>
    match base64Val a, base64Val b with
    | some va, some vb =>
      if vb % 16 = 0 then some [va * 4 + vb / 16] else none
    | _, _ => none
  | [a, b, c, '='] =>
    match base64Val a, base64Val b, base64Val c with
    | some va, some vb, some vc =>
      if vc % 4 = 0 then some [va * 4 + vb / 16, (vb % 16) * 16 + vc / 4] else none
    | _, _, _ => none
  | a :: b :: c :: d :: rest =>
    match base64Val a, base64Val b, base64Val c, base64Val d, base64DecodeCore rest with
    | some va, some vb, some vc, some vd, some bs =>
      some ([va * 4 + vb / 16, (vb % 16) * 16 + vc / 4, (vc % 4) * 64 + vd] ++ bs)
    | _, _, _, _, _ => none
  | _ => none

/-- Standard base64 decoding of a string into bytes. -/
def base64Decode (s : String) : Option (List Nat) :=
  base64DecodeCore s.toList

/-- Standard base64 with padding, encoding (`general_purpose::STANDARD.encode`). -/
def base64EncodeCore : List Nat → List Char
  | [] => []
  | [a] =>
    [base64Alphabet.getD (a / 4) 'A', base64Alphabet.getD (a % 4 * 16) 'A', '=', '=']
  | [a, b] =>
    [base64Alphabet.getD (a / 4) 'A', base64Alphabet.getD (a % 4 * 16 + b / 16) 'A',
     base64Alphabet.getD (b % 16 * 4) 'A', '=']
  | a :: b :: c :: rest =>
    [base64Alphabet.getD (a / 4) 'A', base64Alphabet.getD (a % 4 * 16 + b / 16) 'A',
     base64Alphabet.getD (b % 16 * 4 + c / 64) 'A', base64Alphabet.getD (c % 64) 'A']
      ++ base64EncodeCore rest

/-- Standard base64 encoding of bytes into a string. -/
def base64Encode (bs : List Nat) : String :=
  String.mk (base64EncodeCore bs)

/-- `DkimPublicKey` (lib.rs 52-56).  The embedded key material is opaque to
the control flow under verification; a key is identified by a number and the
cryptographic primitives are supplied as function parameters. -/
inductive DkimPublicKey where
  | Rsa (key : Nat)
  | Ed25519 (key : Nat)
  deriving DecidableEq, Repr

/-- `DkimPrivateKey` (lib.rs 116-120).  RSA key material is opaque;
an Ed25519 key is its 32-byte seed (the signing operation is embedded
concretely further down). -/
inductive DkimPrivateKey where
  | Rsa (key : Nat)
  | Ed25519 (seed : List Nat)
  deriving DecidableEq, Repr

/-- The external cryptographic verification collaborators (the rsa and
ed25519-dalek crates): `RsaPublicKey::verify` with a `Pkcs1v15Sign` padding
chosen by hash algorithm, and `VerifyingKey::verify_strict`.  Both are
deterministic functions of key, message and signature. -/
structure CryptoVerify where
  rsaVerify : Nat → HashAlgo → List Nat → List Nat → Bool
  ed25519VerifyStrict : Nat → List Nat → List Nat → Bool

/-- `verify_signature` (lib.rs 209-236): dispatch on the public key first;
an RSA key admits the two RSA algorithms and rejects the remaining
(`Ed25519Sha256`) with `UnsupportedHashAlgorithm` (the Rust `format!("{:?}")`
of the variant); an Ed25519 key converts the signature to a 64-byte array
(failure is a `SignatureSyntaxError`) and calls `verify_strict` regardless of
the hash algorithm. -/
def verify_signature (crypto : CryptoVerify) (hash_algo : HashAlgo)
    (header_hash signature : List Nat) (public_key : DkimPublicKey) :
    Except DKIMError Bool :=
  match public_key with
  | .Rsa key =>
    match hash_algo with
    | .RsaSha1 => .ok (crypto.rsaVerify key .RsaSha1 header_hash signature)
    | .RsaSha256 => .ok (crypto.rsaVerify key .RsaSha256 header_hash signature)
    | .Ed25519Sha256 => .error (.UnsupportedHashAlgorithm "Ed25519Sha256")
  | .Ed25519 key =>
    if signature.length = 64 then
      .ok (crypto.ed25519VerifyStrict key header_hash signature)
    else .error (.SignatureSyntaxError "could not convert slice to an array")

/-- `result::DKIMResult` (spec §3).  Modelled from the spec; `result.rs` is
absent from `src/`. -/
inductive DKIMResult where
  | Pass (domain : String) (header_canon body_canon : CanonicalizationType)
  | Fail (reason : DKIMError) (domain : String)
  | Neutral (domain : String)
  deriving DecidableEq, Repr

/-- Modelled from the spec (§4.3): the two hashing entrypoints of `hash.rs`
(absent from `src/`), partially applied to one fixed parsed email.  An
element stands for `hash::compute_body_hash` (base64 of the body digest) and
`hash::compute_headers_hash` (digest bytes of the selected header set) on
that email. -/
structure HashOps where
  compute_body_hash :
    CanonicalizationType → Option String → HashAlgo → Except DKIMError String
  compute_headers_hash :
    CanonicalizationType → String → HashAlgo → DKIMHeader → Except DKIMError (List Nat)

/-- The signature-scanning loop of `verify_email_with_key` (lib.rs 364-427)
over the raw `DKIM-Signature` header values of the email, carrying
`last_error`.  A `validate_header` failure is recorded and the loop
continues; a `d=`/`from_domain` mismatch is skipped silently; every error of
the remaining pipeline for a matching signature is returned immediately with
`?`/`return Err` in the source and is an `.error` here. -/
def verify_email_with_key_go (now : Int) (crypto : CryptoVerify) (hashes : HashOps)
    (from_domain : String) (public_key : DkimPublicKey) :
    List String → Option DKIMError → Except DKIMError DKIMResult
  | [], none => .ok (.Neutral from_domain)
  | [], some err => .ok (.Fail err from_domain)
  | value :: rest, last_error =>
    match validate_header now value with
    | .error err =>
      verify_email_with_key_go now crypto hashes from_domain public_key rest (some err)
    | .ok dkim_header =>
      let signing_domain := dkim_header.get_required_tag "d"
      if lowerStr signing_domain ≠ lowerStr from_domain then
        verify_email_with_key_go now crypto hashes from_domain public_key rest last_error
      else
        match parse_canonicalization (dkim_header.get_tag "c") with
        | .error e => .error e
        | .ok (header_canon_type, body_canon_type) =>
        match parse_hash_algo (dkim_header.get_required_tag "a") with
        | .error e => .error e
        | .ok hash_algo =>
        match hashes.compute_body_hash body_canon_type (dkim_header.get_tag "l") hash_algo with
        | .error e => .error e
        | .ok computed_body_hash =>
        match hashes.compute_headers_hash header_canon_type
            (dkim_header.get_required_tag "h") hash_algo dkim_header with
        | .error e => .error e
        | .ok computed_header_hash =>
        if dkim_header.get_required_tag "bh" ≠ computed_body_hash then
          .error .BodyHashDidNotVerify
        else
          match base64Decode (dkim_header.get_required_tag "b") with
          | none => .error (.SignatureSyntaxError "failed to decode signature")
          | some signature =>
            match verify_signature crypto hash_algo computed_header_hash signature public_key with
            | .error e => .error e
            | .ok verified =>
              if verified then .ok (.Pass signing_domain header_canon_type body_canon_type)
              else .error .SignatureDidNotVerify

/-- `verify_email_with_key` (lib.rs 356-434).  `emailHeaders` is the list of
raw `DKIM-Signature` header values of the email in document order
(`email.headers.get_all_headers(HEADER)`). -/
def verify_email_with_key (now : Int) (crypto : CryptoVerify) (hashes : HashOps)
    (from_domain : String) (emailHeaders : List String) (public_key : DkimPublicKey) :
    Except DKIMError DKIMResult :=
  verify_email_with_key_go now crypto hashes from_domain public_key emailHeaders none

/-- `verify_email_header` (lib.rs 239-287): the per-signature pipeline of the
resolver entrypoint.  `keyFor` models `public_key::retrieve_public_key`
(absent from `src/`) with the resolver fixed: it maps the `d=` and `s=` tag
values to a public key or a retrieval error. -/
def verify_email_header (crypto : CryptoVerify) (hashes : HashOps)
    (keyFor : String → String → Except DKIMError DkimPublicKey)
    (dkim_header : DKIMHeader) :
    Except DKIMError (CanonicalizationType × CanonicalizationType) :=
  match keyFor (dkim_header.get_required_tag "d") (dkim_header.get_required_tag "s") with
  | .error e => .error e
  | .ok public_key =>
  match parse_canonicalization (dkim_header.get_tag "c") with
  | .error e => .error e
  | .ok (header_canonicalization_type, body_canonicalization_type) =>
  match parse_hash_algo (dkim_header.get_required_tag "a") with
  | .error e => .error e
  | .ok hash_algo =>
  match hashes.compute_body_hash body_canonicalization_type
      (dkim_header.get_tag "l") hash_algo with
  | .error e => .error e
  | .ok computed_body_hash =>
  match hashes.compute_headers_hash header_canonicalization_type
      (dkim_header.get_required_tag "h") hash_algo dkim_header with
  | .error e => .error e
  | .ok computed_headers_hash =>
  if dkim_header.get_required_tag "bh" ≠ computed_body_hash then
    .error .BodyHashDidNotVerify
  else
    match base64Decode (dkim_header.get_required_tag "b") with
    | none => .error (.SignatureSyntaxError "failed to decode signature")
    | some signature =>
      match verify_signature crypto hash_algo computed_headers_hash signature public_key with
      | .error e => .error e
      | .ok verified =>
        if verified then .ok (header_canonicalization_type, body_canonicalization_type)
        else .error .SignatureDidNotVerify

/-- The signature-scanning loop of `verify_email_with_resolver`
(lib.rs 299-332): a `validate_header` failure and every
`verify_email_header` failure are recorded into `last_error` and the loop
continues; a `d=`/`from_domain` mismatch is skipped silently. -/
def verify_email_with_resolver_go (now : Int) (crypto : CryptoVerify) (hashes : HashOps)
    (keyFor : String → String → Except DKIMError DkimPublicKey) (from_domain : String) :
    List String → Option DKIMError → Except DKIMError DKIMResult
  | [], none => .ok (.Neutral from_domain)
  | [], some err => .ok (.Fail err from_domain)
  | value :: rest, last_error =>
    match validate_header now value with
    | .error err =>
      verify_email_with_resolver_go now crypto hashes keyFor from_domain rest (some err)
    | .ok dkim_header =>
      let signing_domain := dkim_header.get_required_tag "d"
      if lowerStr signing_domain ≠ lowerStr from_domain then
        verify_email_with_resolver_go now crypto hashes keyFor from_domain rest last_error
      else
        match verify_email_header crypto hashes keyFor dkim_header with
        | .ok (header_canonicalization_type, body_canonicalization_type) =>
          .ok (.Pass signing_domain header_canonicalization_type body_canonicalization_type)
        | .error err =>
          verify_email_with_resolver_go now crypto hashes keyFor from_domain rest (some err)

/-- `verify_email_with_resolver` (lib.rs 291-339). -/
def verify_email_with_resolver (now : Int) (crypto : CryptoVerify) (hashes : HashOps)
    (keyFor : String → String → Except DKIMError DkimPublicKey)
    (from_domain : String) (emailHeaders : List String) :
    Except DKIMError DKIMResult :=
  verify_email_with_resolver_go now crypto hashes keyFor from_domain emailHeaders none

/-- `SignerBuilder` (sign.rs 12-24), time feature enabled.  The logger is
opaque (`Option Unit` records only whether one was supplied); `time` is Unix
seconds; `expiry` a duration in seconds. -/
structure SignerBuilder where
  signed_headers : Option (List String)
  private_key : Option DkimPrivateKey
  selector : Option String
  signing_domain : Option String
  time : Option Int
  header_canonicalization : CanonicalizationType
  body_canonicalization : CanonicalizationType
  logger : Option Unit
  expiry : Option Int
  deriving Repr

/-- `SignerBuilder::new` (sign.rs 28-43). -/
def SignerBuilder.new : SignerBuilder :=
  { signed_headers := none, private_key := none, selector := none,
    signing_domain := none, time := none,
    header_canonicalization := .Simple, body_canonicalization := .Simple,
    logger := none, expiry := none }

/-- `SignerBuilder::with_signed_headers` (sign.rs 47-55): requires a
case-insensitive `from` among the headers. -/
def SignerBuilder.with_signed_headers (b : SignerBuilder) (headers : List String) :
    Except DKIMError SignerBuilder :=
  if (headers.find? (fun h => lowerStr h = "from")).isNone then
    .error (.BuilderError "missing From in signed headers")
  else .ok { b with signed_headers := some headers }

/-- `SignerBuilder::with_private_key` (sign.rs 58-61). -/
def SignerBuilder.with_private_key (b : SignerBuilder) (key : DkimPrivateKey) : SignerBuilder :=
  { b with private_key := some key }

/-- `SignerBuilder::with_selector` (sign.rs 64-67). -/
def SignerBuilder.with_selector (b : SignerBuilder) (value : String) : SignerBuilder :=
  { b with selector := some value }

/-- `SignerBuilder::with_signing_domain` (sign.rs 70-73). -/
def SignerBuilder.with_signing_domain (b : SignerBuilder) (value : String) : SignerBuilder :=
  { b with signing_domain := some value }

/-- `SignerBuilder::with_header_canonicalization` (sign.rs 76-79). -/
def SignerBuilder.with_header_canonicalization (b : SignerBuilder)
    (value : CanonicalizationType) : SignerBuilder :=
  { b with header_canonicalization := value }

/-- `SignerBuilder::with_body_canonicalization` (sign.rs 82-85). -/
def SignerBuilder.with_body_canonicalization (b : SignerBuilder)
    (value : CanonicalizationType) : SignerBuilder :=
  { b with body_canonicalization := value }

/-- `SignerBuilder::with_logger` (sign.rs 88-91). -/
def SignerBuilder.with_logger (b : SignerBuilder) : SignerBuilder :=
  { b with logger := some () }

/-- `SignerBuilder::with_time` (sign.rs 95-98). -/
def SignerBuilder.with_time (b : SignerBuilder) (value : Int) : SignerBuilder :=
  { b with time := some value }

/-- `SignerBuilder::with_expiry` (sign.rs 102-105). -/
def SignerBuilder.with_expiry (b : SignerBuilder) (value : Int) : SignerBuilder :=
  { b with expiry := some value }

/-- `DKIMSigner` (sign.rs 150-163), time feature enabled. -/
structure DKIMSigner where
  signed_headers : List String
  private_key : DkimPrivateKey
  selector : String
  signing_domain : String
  header_canonicalization : CanonicalizationType
  body_canonicalization : CanonicalizationType
  expiry : Option Int
  hash_algo : HashAlgo
  time : Option Int
  deriving Repr

/-- `SignerBuilder::build` (sign.rs 110-141): the private key is demanded
first and fixes the hash algorithm; then signed headers, selector, logger and
signing domain are demanded in the order of the struct literal (the message
for a missing signing domain is the source's literal "missing required
logger"). -/
def SignerBuilder.build (b : SignerBuilder) : Except DKIMError DKIMSigner :=
  match b.private_key with
  | none => .error (.BuilderError "missing required private key")
  | some private_key =>
    let hash_algo := match private_key with
      | .Rsa _ => HashAlgo.RsaSha256
      | .Ed25519 _ => HashAlgo.Ed25519Sha256
    match b.signed_headers with
    | none => .error (.BuilderError "missing required signed headers")
    | some signed_headers =>
    match b.selector with
    | none => .error (.BuilderError "missing required selector")
    | some selector =>
    match b.logger with
    | none => .error (.BuilderError "missing required logger")
    | some _ =>
    match b.signing_domain with
    | none => .error (.BuilderError "missing required logger")
    | some signing_domain =>
      .ok { signed_headers := signed_headers, private_key := private_key,
            selector := selector, signing_domain := signing_domain,
            header_canonicalization := b.header_canonicalization,
            body_canonicalization := b.body_canonicalization,
            expiry := b.expiry, hash_algo := hash_algo, time := b.time }

/-- Big-endian encoding of `n` into `k` bytes. -/
def beBytes : Nat → Nat → List Nat
  | 0, _ => []
  | k + 1, n => beBytes k (n >>> 8) ++ [n &&& 255]

/-- Split a list into chunks of `n` elements (fuelled by the list length). -/
def chunksOfFuel (n : Nat) : Nat → List Nat → List (List Nat)
  | 0, _ => []
  | _, [] => []
  | fuel + 1, xs => xs.take n :: chunksOfFuel n fuel (xs.drop n)

/-- Split a byte list into blocks of `n` bytes. -/
def chunksOf (n : Nat) (xs : List Nat) : List (List Nat) :=
  chunksOfFuel n xs.length xs

/-- Merkle-Damgard padding: a `0x80` byte, zeros, and the message bit length
in a big-endian field of `lenBytes` bytes, filling to a multiple of
`blockSize`. -/
def mdPad (blockSize lenBytes : Nat) (msg : List Nat) : List Nat :=
  let padLen := (blockSize - (msg.length + 1 + lenBytes) % blockSize) % blockSize
  msg ++ [128] ++ List.replicate padLen 0 ++ beBytes lenBytes (msg.length * 8)

/-- Combine bytes into big-endian 32-bit words. -/
def toWords32 : List Nat → List Nat
  | a :: b :: c :: d :: rest => (((a * 256 + b) * 256 + c) * 256 + d) :: toWords32 rest
  | _ => []

/-- Combine bytes into big-endian 64-bit words. -/
def toWords64 : List Nat → List Nat
  | a :: b :: c :: d :: e :: f :: g :: h :: rest =>
    (((((((a * 256 + b) * 256 + c) * 256 + d) * 256 + e) * 256 + f) * 256 + g) * 256 + h)
      :: toWords64 rest
  | _ => []

/-- Rotate a 32-bit word right by `n`. -/
def rotr32 (n x : Nat) : Nat := ((x >>> n) ||| (x <<< (32 - n))) % 4294967296

/-- Rotate a 32-bit word left by `n`. -/
def rotl32 (n x : Nat) : Nat := ((x <<< n) ||| (x >>> (32 - n))) % 4294967296

/-- Rotate a 64-bit word right by `n`. -/
def rotr64 (n x : Nat) : Nat := ((x >>> n) ||| (x <<< (64 - n))) % 18446744073709551616

/-- Working state of the SHA-2 compression functions: eight words. -/
structure Words8 where
  w0 : Nat
  w1 : Nat
  w2 : Nat
  w3 : Nat
  w4 : Nat
  w5 : Nat
  w6 : Nat
  w7 : Nat
  deriving Repr

/-- The 64 SHA-256 round constants. -/
def sha256K : List Nat :=
  [1116352408, 1899447441, 3049323471, 3921009573,
   961987163, 1508970993, 2453635748, 2870763221,
   3624381080, 310598401, 607225278, 1426881987,
   1925078388, 2162078206, 2614888103, 3248222580,
   3835390401, 4022224774, 264347078, 604807628,
   770255983, 1249150122, 1555081692, 1996064986,
   2554220882, 2821834349, 2952996808, 3210313671,
   3336571891, 3584528711, 113926993, 338241895,
   666307205, 773529912, 1294757372, 1396182291,
   1695183700, 1986661051, 2177026350, 2456956037,
   2730485921, 2820302411, 3259730800, 3345764771,
   3516065817, 3600352804, 4094571909, 275423344,
   430227734, 506948616, 659060556, 883997877,
   958139571, 1322822218, 1537002063, 1747873779,
   1955562222, 2024104815, 2227730452, 2361852424,
   2428436474, 2756734187, 3204031479, 3329325298]

/-- The SHA-256 initial state. -/
def sha256H0 : List Nat :=
  [1779033703, 3144134277, 1013904242, 2773480762,
   1359893119, 2600822924, 528734635, 1541459225]

/-- The 80 SHA-512 round constants. -/
def sha512K : List Nat :=
  [4794697086780616226, 8158064640168781261, 13096744586834688815,
   16840607885511220156, 4131703408338449720, 6480981068601479193,
   10538285296894168987, 12329834152419229976, 15566598209576043074,
   1334009975649890238, 2608012711638119052, 6128411473006802146,
   8268148722764581231, 9286055187155687089, 11230858885718282805,
   13951009754708518548, 16472876342353939154, 17275323862435702243,
   1135362057144423861, 2597628984639134821, 3308224258029322869,
   5365058923640841347, 6679025012923562964, 8573033837759648693,
   10970295158949994411, 12119686244451234320, 12683024718118986047,
   13788192230050041572, 14330467153632333762, 15395433587784984357,
   489312712824947311, 1452737877330783856, 2861767655752347644,
   3322285676063803686, 5560940570517711597, 5996557281743188959,
   7280758554555802590, 8532644243296465576, 9350256976987008742,
   10552545826968843579, 11727347734174303076, 12113106623233404929,
   14000437183269869457, 14369950271660146224, 15101387698204529176,
   15463397548674623760, 17586052441742319658, 1182934255886127544,
   1847814050463011016, 2177327727835720531, 2830643537854262169,
   3796741975233480872, 4115178125766777443, 5681478168544905931,
   6601373596472566643, 7507060721942968483, 8399075790359081724,
   8693463985226723168, 9568029438360202098, 10144078919501101548,
   10430055236837252648, 11840083180663258601, 13761210420658862357,
   14299343276471374635, 14566680578165727644, 15097957966210449927,
   16922976911328602910, 17689382322260857208, 500013540394364858,
   748580250866718886, 1242879168328830382, 1977374033974150939,
   2944078676154940804, 3659926193048069267, 4368137639120453308,
   4836135668995329356, 5532061633213252278, 6448918945643986474,
   6902733635092675308, 7801388544844847127]

/-- The SHA-512 initial state. -/
def sha512H0 : List Nat :=
  [7640891576956012808, 13503953896175478587, 4354685564936845355,
   11912009170470909681, 5840696475078001361, 11170449401992604703,
   2270897969802886507, 6620516959819538809]

/-- One SHA-256 round. -/
def sha256Round (s : Words8) (k w : Nat) : Words8 :=
  let bigS1 := rotr32 6 s.w4 ^^^ rotr32 11 s.w4 ^^^ rotr32 25 s.w4
  let ch := (s.w4 &&& s.w5) ^^^ ((s.w4 ^^^ 4294967295) &&& s.w6)
  let t1 := (s.w7 + bigS1 + ch + k + w) % 4294967296
  let bigS0 := rotr32 2 s.w0 ^^^ rotr32 13 s.w0 ^^^ rotr32 22 s.w0
  let maj := (s.w0 &&& s.w1) ^^^ (s.w0 &&& s.w2) ^^^ (s.w1 &&& s.w2)
  let t2 := (bigS0 + maj) % 4294967296
  { w0 := (t1 + t2) % 4294967296, w1 := s.w0, w2 := s.w1, w3 := s.w2,
    w4 := (s.w3 + t1) % 4294967296, w5 := s.w4, w6 := s.w5, w7 := s.w6 }

/-- Extend the sixteen message words of a SHA-256 block to sixty-four. -/
def sha256Extend (ws16 : List Nat) : List Nat :=
  (List.range 48).foldl (fun ws _ =>
    let i := ws.length
    let x15 := ws.getD (i - 15) 0
    let x2 := ws.getD (i - 2) 0
    let s0 := rotr32 7 x15 ^^^ rotr32 18 x15 ^^^ (x15 >>> 3)
    let s1 := rotr32 17 x2 ^^^ rotr32 19 x2 ^^^ (x2 >>> 10)
    ws ++ [(ws.getD (i - 16) 0 + s0 + ws.getD (i - 7) 0 + s1) % 4294967296]) ws16

/-- SHA-256 compression of one 64-byte block into the chaining state. -/
def sha256Compress (h : List Nat) (block : List Nat) : List Nat :=
  let ws := sha256Extend (toWords32 block)
  let init : Words8 :=
    { w0 := h.getD 0 0, w1 := h.getD 1 0, w2 := h.getD 2 0, w3 := h.getD 3 0,
      w4 := h.getD 4 0, w5 := h.getD 5 0, w6 := h.getD 6 0, w7 := h.getD 7 0 }
  let s := (ws.zip sha256K).foldl (fun s p => sha256Round s p.2 p.1) init
  [(h.getD 0 0 + s.w0) % 4294967296, (h.getD 1 0 + s.w1) % 4294967296,
   (h.getD 2 0 + s.w2) % 4294967296, (h.getD 3 0 + s.w3) % 4294967296,
   (h.getD 4 0 + s.w4) % 4294967296, (h.getD 5 0 + s.w5) % 4294967296,
   (h.getD 6 0 + s.w6) % 4294967296, (h.getD 7 0 + s.w7) % 4294967296]

/-- SHA-256 of a byte list. -/
def sha256 (msg : List Nat) : List Nat :=
  ((chunksOf 64 (mdPad 64 8 msg)).foldl sha256Compress sha256H0).foldr
    (fun w acc => beBytes 4 w ++ acc) []

/-- One SHA-512 round. -/
def sha512Round (s : Words8) (k w : Nat) : Words8 :=
  let bigS1 := rotr64 14 s.w4 ^^^ rotr64 18 s.w4 ^^^ rotr64 41 s.w4
  let ch := (s.w4 &&& s.w5) ^^^ ((s.w4 ^^^ 18446744073709551615) &&& s.w6)
  let t1 := (s.w7 + bigS1 + ch + k + w) % 18446744073709551616
  let bigS0 := rotr64 28 s.w0 ^^^ rotr64 34 s.w0 ^^^ rotr64 39 s.w0
  let maj := (s.w0 &&& s.w1) ^^^ (s.w0 &&& s.w2) ^^^ (s.w1 &&& s.w2)
  let t2 := (bigS0 + maj) % 18446744073709551616
  { w0 := (t1 + t2) % 18446744073709551616, w1 := s.w0, w2 := s.w1, w3 := s.w2,
    w4 := (s.w3 + t1) % 18446744073709551616, w5 := s.w4, w6 := s.w5, w7 := s.w6 }

/-- Extend the sixteen message words of a SHA-512 block to eighty. -/
def sha512Extend (ws16 : List Nat) : List Nat :=
  (List.range 64).foldl (fun ws _ =>
    let i := ws.length
    let x15 := ws.getD (i - 15) 0
    let x2 := ws.getD (i - 2) 0
    let s0 := rotr64 1 x15 ^^^ rotr64 8 x15 ^^^ (x15 >>> 7)
    let s1 := rotr64 19 x2 ^^^ rotr64 61 x2 ^^^ (x2 >>> 6)
    ws ++ [(ws.getD (i - 16) 0 + s0 + ws.getD (i - 7) 0 + s1) % 18446744073709551616]) ws16

/-- SHA-512 compression of one 128-byte block into the chaining state. -/
def sha512Compress (h : List Nat) (block : List Nat) : List Nat :=
  let ws := sha512Extend (toWords64 block)
  let init : Words8 :=
    { w0 := h.getD 0 0, w1 := h.getD 1 0, w2 := h.getD 2 0, w3 := h.getD 3 0,
      w4 := h.getD 4 0, w5 := h.getD 5 0, w6 := h.getD 6 0, w7 := h.getD 7 0 }
  let s := (ws.zip sha512K).foldl (fun s p => sha512Round s p.2 p.1) init
  [(h.getD 0 0 + s.w0) % 18446744073709551616, (h.getD 1 0 + s.w1) % 18446744073709551616,
   (h.getD 2 0 + s.w2) % 18446744073709551616, (h.getD 3 0 + s.w3) % 18446744073709551616,
   (h.getD 4 0 + s.w4) % 18446744073709551616, (h.getD 5 0 + s.w5) % 18446744073709551616,
   (h.getD 6 0 + s.w6) % 18446744073709551616, (h.getD 7 0 + s.w7) % 18446744073709551616]

/-- SHA-512 of a byte list. -/
def sha512 (msg : List Nat) : List Nat :=
  ((chunksOf 128 (mdPad 128 16 msg)).foldl sha512Compress sha512H0).foldr
    (fun w acc => beBytes 8 w ++ acc) []

/-- Working state of SHA-1: five words. -/
structure Words5 where
  v0 : Nat
  v1 : Nat
  v2 : Nat
  v3 : Nat
  v4 : Nat
  deriving Repr

/-- One SHA-1 round; `i` is the round index. -/
def sha1Round (s : Words5) (i w : Nat) : Words5 :=
  let fk : Nat × Nat :=
    if i < 20 then ((s.v1 &&& s.v2) ||| ((s.v1 ^^^ 4294967295) &&& s.v3), 1518500249)
    else if i < 40 then (s.v1 ^^^ s.v2 ^^^ s.v3, 1859775393)
    else if i < 60 then ((s.v1 &&& s.v2) ||| (s.v1 &&& s.v3) ||| (s.v2 &&& s.v3), 2400959708)
    else (s.v1 ^^^ s.v2 ^^^ s.v3, 3395469782)
  let temp := (rotl32 5 s.v0 + fk.1 + s.v4 + fk.2 + w) % 4294967296
  { v0 := temp, v1 := s.v0, v2 := rotl32 30 s.v1, v3 := s.v2, v4 := s.v3 }

/-- Extend the sixteen message words of a SHA-1 block to eighty. -/
def sha1Extend (ws16 : List Nat) : List Nat :=
  (List.range 64).foldl (fun ws _ =>
    let i := ws.length
    ws ++ [rotl32 1 (ws.getD (i - 3) 0 ^^^ ws.getD (i - 8) 0 ^^^
                     ws.getD (i - 14) 0 ^^^ ws.getD (i - 16) 0)]) ws16

/-- SHA-1 compression of one 64-byte block into the chaining state. -/
def sha1Compress (h : List Nat) (block : List Nat) : List Nat :=
  let ws := sha1Extend (toWords32 block)
  let init : Words5 :=
    { v0 := h.getD 0 0, v1 := h.getD 1 0, v2 := h.getD 2 0,
      v3 := h.getD 3 0, v4 := h.getD 4 0 }
  let s := (ws.zip (List.range 80)).foldl (fun s p => sha1Round s p.2 p.1) init
  [(h.getD 0 0 + s.v0) % 4294967296, (h.getD 1 0 + s.v1) % 4294967296,
   (h.getD 2 0 + s.v2) % 4294967296, (h.getD 3 0 + s.v3) % 4294967296,
   (h.getD 4 0 + s.v4) % 4294967296]

/-- SHA-1 of a byte list. -/
def sha1 (msg : List Nat) : List Nat :=
  ((chunksOf 64 (mdPad 64 8 msg)).foldl sha1Compress
    [1732584193, 4023233417, 2562383102, 271733878, 3285377520]).foldr
    (fun w acc => beBytes 4 w ++ acc) []

/-- The Ed25519 field prime, 2^255 - 19. -/
def edP : Nat := 57896044618658097711785492504343953926634992332820282019728792003956564819949

/-- The Ed25519 group order L = 2^252 + 27742317777372353535851937790883648493. -/
def edL : Nat := 7237005577332262213973186563042994240857116359379907606001950938285454250989

/-- The twisted Edwards curve constant d = -121665/121666 mod p. -/
def edD : Nat := 37095705934669439343138083508754565189542113879843219016388785533085940283555

/-- A curve point in extended homogeneous coordinates (RFC 8032 §5.1.4). -/
structure EdPoint where
  X : Nat
  Y : Nat
  Z : Nat
  T : Nat
  deriving Repr

/-- The neutral element. -/
def edId : EdPoint := { X := 0, Y := 1, Z := 1, T := 0 }

/-- The Ed25519 base point. -/
def edB : EdPoint :=
  let bx := 15112221349535400772501151409588531511454012693041857206046113283949847762202
  let by' := 46316835694926478169428394003475163141307993866256225615783033603165251855960
  { X := bx, Y := by', Z := 1, T := bx * by' % edP }

/-- Complete point addition on the twisted Edwards curve
(RFC 8032 §5.1.4); the same formula doubles a point. -/
def padd (p1 p2 : EdPoint) : EdPoint :=
  let a := (p1.Y + edP - p1.X % edP) * (p2.Y + edP - p2.X % edP) % edP
  let b := (p1.Y + p1.X) * (p2.Y + p2.X) % edP
  let c := 2 * p1.T % edP * p2.T % edP * edD % edP
  let d := 2 * p1.Z % edP * p2.Z % edP
  let e := (b + edP - a) % edP
  let f := (d + edP - c) % edP
  let g := (d + c) % edP
  let h := (b + a) % edP
  { X := e * f % edP, Y := g * h % edP, Z := f * g % edP, T := e * h % edP }

/-- Bits of a natural number, most significant first (fuelled so that the
recursion is structural; any fuel above the bit length is exact). -/
def natBitsFuel : Nat → Nat → List Bool
  | 0, _ => []
  | fuel + 1, n => if n = 0 then [] else natBitsFuel fuel (n / 2) ++ [decide (n % 2 = 1)]

/-- Left-to-right double-and-add over a most-significant-first bit list. -/
def pmulBits (base : EdPoint) : List Bool → EdPoint → EdPoint
  | [], acc => acc
  | b :: rest, acc =>
    let acc2 := padd acc acc
    pmulBits base rest (if b then padd acc2 base else acc2)

/-- Scalar multiplication on the curve. -/
def pmul (n : Nat) (p : EdPoint) : EdPoint := pmulBits p (natBitsFuel 300 n) edId

/-- Fuelled square-and-multiply modular exponentiation. -/
def powmodFuel : Nat → Nat → Nat → Nat → Nat
  | 0, _, _, m => 1 % m
  | fuel + 1, b, e, m =>
    if e = 0 then 1 % m
    else
      let r := powmodFuel fuel (b * b % m) (e / 2) m
      if e % 2 = 1 then r * b % m else r

/-- Modular exponentiation. -/
def powmod (b e m : Nat) : Nat := powmodFuel 600 b e m

/-- Inverse modulo the field prime (Fermat). -/
def modinv (x : Nat) : Nat := powmod x (edP - 2) edP

/-- Little-endian byte encoding of `n` in `k` bytes. -/
def leBytes : Nat → Nat → List Nat
  | 0, _ => []
  | k + 1, n => (n % 256) :: leBytes k (n / 256)

/-- Little-endian byte decoding. -/
def leToNat (bs : List Nat) : Nat :=
  bs.foldr (fun b acc => b + 256 * acc) 0

/-- Point compression: the affine y with the parity of x in the top bit,
little-endian (RFC 8032 §5.1.2). -/
def edEncode (p : EdPoint) : List Nat :=
  let zinv := modinv p.Z
  let x := p.X * zinv % edP
  let y := p.Y * zinv % edP
  leBytes 32 (y + x % 2 * 2 ^ 255)

/-- Secret-scalar clamping: clear the three low bits and the top bit, set
bit 254 (RFC 8032 §5.1.5). -/
def edClamp (n : Nat) : Nat := (n &&& (2 ^ 254 - 8)) ||| 2 ^ 254

/-- The clamped secret scalar derived from a seed (RFC 8032 §5.1.5). -/
def ed25519Scalar (seed : List Nat) : Nat :=
  edClamp (leToNat ((sha512 seed).take 32))

/-- The deterministic nonce of a seed and message (RFC 8032 §5.1.6 step 2). -/
def ed25519Nonce (seed msg : List Nat) : Nat :=
  leToNat (sha512 ((sha512 seed).drop 32 ++ msg)) % edL

/-- Ed25519 signing of a message with a 32-byte seed (RFC 8032 §5.1.6); this
is the deterministic `ed25519_dalek::SigningKey::sign`. -/
def ed25519Sign (seed msg : List Nat) : List Nat :=
  let a := ed25519Scalar seed
  let pubA := edEncode (pmul a edB)
  let r := ed25519Nonce seed msg
  let rEnc := edEncode (pmul r edB)
  let k := leToNat (sha512 (rEnc ++ pubA ++ msg)) % edL
  let s := (r + k * a) % edL
  rEnc ++ leBytes 32 s

/-- UTF-8 encoding of one character. -/
def charUtf8 (c : Char) : List Nat :=
  let n := c.toNat
  if n < 128 then [n]
  else if n < 2048 then [192 + n / 64, 128 + n % 64]
  else if n < 65536 then [224 + n / 4096, 128 + n / 64 % 64, 128 + n % 64]
  else [240 + n / 262144, 128 + n / 4096 % 64, 128 + n / 64 % 64, 128 + n % 64]

/-- UTF-8 bytes of a string. -/
def utf8Bytes (s : String) : List Nat :=
  s.toList.foldr (fun c acc => charUtf8 c ++ acc) []

/-- Drop WSP from both ends of a character list. -/
def trimWSP (cs : List Char) : List Char :=
  ((cs.dropWhile isWSPchar).reverse.dropWhile isWSPchar).reverse

/-- Collapse every run of WSP to a single space. -/
def collapseWSP : List Char → List Char
  | [] => []
  | [c] => if isWSPchar c then [' '] else [c]
  | c1 :: c2 :: rest =>
    if isWSPchar c1 && isWSPchar c2 then collapseWSP (c2 :: rest)
    else (if isWSPchar c1 then ' ' else c1) :: collapseWSP (c2 :: rest)

/-- Unfold a header value: remove every CRLF that precedes WSP
(spec §4.2, relaxed headers step 2). -/
def unfoldValue : List Char → List Char
  | [] => []
  | '\r' :: '\n' :: c :: rest =>
    if isWSPchar c then unfoldValue (c :: rest)
    else '\r' :: unfoldValue ('\n' :: c :: rest)
  | c :: rest => c :: unfoldValue rest

/-- Modelled from the spec (§4.2): relaxed canonicalization of one header
line (the full `Name: value` line, folding preserved), without the trailing
CRLF: lowercase the name, unfold, collapse inner WSP, strip trailing WSP and
the WSP around the separating colon. -/
def relaxedHeaderLine (line : String) : String :=
  let name := line.toList.takeWhile (fun c => c ≠ ':')
  let value := (line.toList.dropWhile (fun c => c ≠ ':')).drop 1
  let name := (trimWSP name).map Char.toLower
  let value := trimWSP (collapseWSP (unfoldValue value))
  String.mk name ++ ":" ++ String.mk value

/-- Modelled from the spec (§4.2): canonicalization of one selected header
line, emitted with its terminating CRLF; simple mode emits the header exactly
as it appeared. -/
def canonHeaderLine (t : CanonicalizationType) (line : String) : String :=
  match t with
  | .Simple => line ++ "\r\n"
  | .Relaxed => relaxedHeaderLine line ++ "\r\n"

/-- Modelled from the spec (§4.2): relaxed body canonicalization of one line:
collapse WSP runs to one space, strip trailing WSP. -/
def relaxedBodyLineChars (l : List Char) : List Char :=
  ((collapseWSP l).reverse.dropWhile isWSPchar).reverse

/-- Modelled from the spec (§4.2): body canonicalization
(`canonicalization.rs` is absent from `src/`): split on CRLF, apply the
relaxed line reductions when asked, remove the empty lines at the end and
append exactly one CRLF; an empty body becomes a single CRLF. -/
def canonicalize_body (t : CanonicalizationType) (body : String) : String :=
  let ls := splitCRLF body.toList
  let ls := match t with
    | .Simple => ls
    | .Relaxed => ls.map relaxedBodyLineChars
  let ls := (ls.reverse.dropWhile (fun l => l.isEmpty)).reverse
  match ls with
  | [] => "\r\n"
  | _ => String.mk (joinWith ['\r', '\n'] ls) ++ "\r\n"

/-- `header::HEADER`: the header name the verifier scans for. -/
def HEADER : String := "DKIM-Signature"

/-- Modelled from the spec (§6, email interface): a parsed email is its
logical header lines (each the full raw `Name: value` text with folding
preserved, without the terminating CRLF) and the raw body (everything after
the first CRLFCRLF). -/
structure Email where
  headers : List String
  body : String
  deriving Repr

/-- Name of a raw header line: the text before the first colon. -/
def headerNameOf (line : String) : String :=
  String.mk (line.toList.takeWhile (fun c => c ≠ ':'))

/-- Group physical header lines into logical ones: a line starting with WSP
continues the previous header. -/
def groupHeaderLines (lines : List String) : List String :=
  lines.foldl (fun acc l =>
    match l.toList with
    | c :: _ =>
      if isWSPchar c then
        match acc.getLast? with
        | some prev => acc.dropLast ++ [prev ++ "\r\n" ++ l]
        | none => acc ++ [l]
      else acc ++ [l]
    | [] => acc) []

/-- Modelled from the spec (§6): parse a raw email into header lines and
body (the mailparse collaborator). -/
def splitHeaderBody : List Char → List Char × Option (List Char)
  | [] => ([], none)
  | '\r' :: '\n' :: '\r' :: '\n' :: rest => ([], some rest)
  | c :: rest =>
    match splitHeaderBody rest with
    | (h, b) => (c :: h, b)

/-- Modelled from the spec (§6): parse a raw email into header lines and
body (the mailparse collaborator): the body is everything after the first
CRLFCRLF. -/
def parseEmail (raw : String) : Email :=
  match splitHeaderBody raw.toList with
  | (headerSection, body) =>
    { headers := groupHeaderLines ((splitCRLF headerSection).map String.mk)
      body := String.mk (body.getD []) }

/-- `email.headers.get_all_headers(name)`: every raw header line whose name
matches case-insensitively, in document order. -/
def getAllHeaders (email : Email) (name : String) : List String :=
  email.headers.filter (fun l => lowerStr (headerNameOf l) = lowerStr name)

/-- The digest selected by a hash algorithm (spec §4.3). -/
def hashDigest : HashAlgo → List Nat → List Nat
  | .RsaSha1, bs => sha1 bs
  | .RsaSha256, bs => sha256 bs
  | .Ed25519Sha256, bs => sha256 bs

/-- Modelled from the spec (§4.3): `hash::compute_body_hash` (`hash.rs` is
absent from `src/`): canonicalize the body, truncate to `l=` octets when the
tag is present and parses, digest, base64. -/
def hash.compute_body_hash (canon : CanonicalizationType) (lengthTag : Option String)
    (algo : HashAlgo) (email : Email) : String :=
  let cb := utf8Bytes (canonicalize_body canon email.body)
  let cb := match lengthTag with
    | none => cb
    | some ls =>
      match parseDecimalNat ls.toList with
      | some n => cb.take n
      | none => cb
  base64Encode (hashDigest algo cb)

/-- Modelled from the spec (§4.3, §9 bottom-up selection): for each name of
the `h=` list, left to right, consume the next unconsumed occurrence of that
header from the bottom of the email; exhausted names contribute nothing.
The accumulator carries the selected lines and the per-name consumption
count. -/
def selectHeaders (emailHeaders : List String) (names : List String) : List String :=
  (names.foldl (fun (acc : List String × List (String × Nat)) name =>
    let lower := lowerStr name
    let occ := emailHeaders.filter (fun l => lowerStr (headerNameOf l) = lower)
    let used := ((acc.2.find? (fun p => p.1 = lower)).map (fun p => p.2)).getD 0
    let counts :=
      if (acc.2.find? (fun p => p.1 = lower)).isSome then
        acc.2.map (fun p => if p.1 = lower then (p.1, p.2 + 1) else p)
      else acc.2 ++ [(lower, 1)]
    if used < occ.length then
      (acc.1 ++ [occ.getD (occ.length - 1 - used) ""], counts)
    else (acc.1, counts)) ([], [])).1

/-- Modelled from the spec (§4.3, `b=`-stripping): on the raw tag-list bytes,
replace everything after `b=` up to the terminating `;` (or the end) with the
empty string. -/
def stripBTag : List Char → List Char
  | 'b' :: '=' :: rest => 'b' :: '=' :: rest.dropWhile (fun c => c ≠ ';')
  | c :: rest => c :: stripBTag rest
  | [] => []

/-- Modelled from the spec (§4.3): `hash::compute_headers_hash`: the selected
headers canonicalized and concatenated, then the `DKIM-Signature` header
itself with the `b=` payload emptied, canonicalized without a trailing CRLF,
digested. -/
def hash.compute_headers_hash (canon : CanonicalizationType) (hlist : String)
    (algo : HashAlgo) (dkim_header : DKIMHeader) (email : Email) : List Nat :=
  let names := (splitOnChar ':' hlist.toList).map String.mk
  let selected := selectHeaders email.headers names
  let headerText := String.mk (List.foldr
    (fun l acc => (canonHeaderLine canon l).toList ++ acc) [] selected)
  let dkimLine := HEADER ++ ": " ++ String.mk (stripBTag dkim_header.raw_bytes.toList)
  let dkimCanon := match canon with
    | .Simple => dkimLine
    | .Relaxed => relaxedHeaderLine dkimLine
  hashDigest algo (utf8Bytes (headerText ++ dkimCanon))

/-- The concrete `HashOps` of a parsed email: the spec-modelled `hash.rs`
entrypoints partially applied to it. -/
def hashOpsFor (email : Email) : HashOps :=
  { compute_body_hash := fun canon l algo => .ok (hash.compute_body_hash canon l algo email)
    compute_headers_hash := fun canon h algo hdr =>
      .ok (hash.compute_headers_hash canon h algo hdr email) }

/-- `canonicalization::Type::to_string` (spec §3: the `c=` encoding). -/
def canonTypeString : CanonicalizationType → String
  | .Simple => "simple"
  | .Relaxed => "relaxed"

/-- `header::DKIMHeaderBuilder` (spec §4.4): ordered tags plus the instant
recorded by `set_time`.  Modelled from the spec; `header.rs` is absent from
`src/`. -/
structure DKIMHeaderBuilder where
  tags : List (String × String)
  time : Option Int
  deriving Repr

/-- `DKIMHeaderBuilder::new`. -/
def DKIMHeaderBuilder.new : DKIMHeaderBuilder := { tags := [], time := none }

/-- `DKIMHeaderBuilder::add_tag`. -/
def DKIMHeaderBuilder.add_tag (b : DKIMHeaderBuilder) (name value : String) :
    DKIMHeaderBuilder :=
  { b with tags := b.tags ++ [(name, value)] }

/-- `DKIMHeaderBuilder::set_signed_headers` (spec §4.4: joins with `:`; the
recorded signing fixture of sign.rs shows the names lowercased). -/
def DKIMHeaderBuilder.set_signed_headers (b : DKIMHeaderBuilder)
    (headers : List String) : DKIMHeaderBuilder :=
  b.add_tag "h" (String.mk (joinWith [':'] (headers.map (fun h => (lowerStr h).toList))))

/-- `DKIMHeaderBuilder::set_time` (emits `t=<unix seconds>`). -/
def DKIMHeaderBuilder.set_time (b : DKIMHeaderBuilder) (t : Int) : DKIMHeaderBuilder :=
  { b.add_tag "t" (toString t) with time := some t }

/-- `DKIMHeaderBuilder::set_expiry` (emits `x=` computed from `t` plus the
duration; a BuilderError when `t` is not set yet). -/
def DKIMHeaderBuilder.set_expiry (b : DKIMHeaderBuilder) (duration : Int) :
    Except DKIMError DKIMHeaderBuilder :=
  match b.time with
  | none => .error (.BuilderError "t must be set to calculate expiry")
  | some t => .ok (b.add_tag "x" (toString (t + duration)))

/-- `DKIMHeaderBuilder::build` (spec §4.4): tags joined by `; ` with a
trailing `;`, and the same tags as the lookup map. -/
def DKIMHeaderBuilder.build (b : DKIMHeaderBuilder) : DKIMHeader :=
  { tags := b.tags.foldl (fun m p => insertTag m p.1 { name := p.1, value := p.2 }) []
    raw_bytes :=
      String.mk (joinWith [';', ' ']
        (b.tags.map (fun p => p.1.toList ++ '=' :: p.2.toList))) ++ ";" }

/-- The external RSA signing primitive (`RsaPrivateKey::sign` with a
`Pkcs1v15Sign` padding): a deterministic function of key, padding and digest,
which may fail (mapped to `FailedToSign`). -/
structure SignCrypto where
  rsaSign : Nat → HashAlgo → List Nat → Except String (List Nat)

/-- `DKIMSigner::dkim_header_builder` (sign.rs 199-236): the tentative header
tags in emission order; `now` stands for `chrono::offset::Utc::now()` (Unix
seconds) and is used only when no explicit time was configured.  Note the
source applies `set_expiry` before `set_time`. -/
def DKIMSigner.dkim_header_builder (signer : DKIMSigner) (body_hash : String)
    (now : Int) : Except DKIMError DKIMHeaderBuilder :=
  let hash_algo := match signer.hash_algo with
    | .RsaSha1 => "rsa-sha1"
    | .RsaSha256 => "rsa-sha256"
    | .Ed25519Sha256 => "ed25519-sha256"
  let builder := ((((((DKIMHeaderBuilder.new.add_tag "v" "1").add_tag "a" hash_algo).add_tag
    "d" signer.signing_domain).add_tag "s" signer.selector).add_tag
    "c" (canonTypeString signer.header_canonicalization ++ "/" ++
         canonTypeString signer.body_canonicalization)).add_tag
    "bh" body_hash).set_signed_headers signer.signed_headers
  match signer.expiry with
  | none =>
    .ok (match signer.time with
         | some t => builder.set_time t
         | none => builder.set_time now)
  | some expiry =>
    match builder.set_expiry expiry with
    | .error e => .error e
    | .ok b2 =>
      .ok (match signer.time with
           | some t => b2.set_time t
           | none => b2.set_time now)

/-- `DKIMSigner::compute_body_hash` (sign.rs 238-245): no length tag. -/
def DKIMSigner.compute_body_hash (signer : DKIMSigner) (email : Email) : String :=
  hash.compute_body_hash signer.body_canonicalization none signer.hash_algo email

/-- `DKIMSigner::compute_header_hash` (sign.rs 247-266): the tentative header
with an empty `b=` appended, then the header-set hash. -/
def DKIMSigner.compute_header_hash (signer : DKIMSigner) (email : Email)
    (builder : DKIMHeaderBuilder) : List Nat :=
  let dkim_header := (builder.add_tag "b" "").build
  let signed_headers := dkim_header.get_required_tag "h"
  hash.compute_headers_hash signer.header_canonicalization signed_headers
    signer.hash_algo dkim_header email

/-- `DKIMSigner::sign` (sign.rs 169-197): body hash, tentative header, header
hash, signature (RSA through the external primitive, Ed25519 concretely),
final header emission. -/
def DKIMSigner.sign (crypto : SignCrypto) (signer : DKIMSigner) (now : Int)
    (email : Email) : Except DKIMError String :=
  let body_hash := signer.compute_body_hash email
  match signer.dkim_header_builder body_hash now with
  | .error e => .error e
  | .ok dkim_header_builder =>
    let header_hash := signer.compute_header_hash email dkim_header_builder
    let signatureE : Except DKIMError (List Nat) :=
      match signer.private_key with
      | .Rsa key =>
        match signer.hash_algo with
        | .RsaSha1 =>
          match crypto.rsaSign key .RsaSha1 header_hash with
          | .error e => .error (.FailedToSign e)
          | .ok sig => .ok sig
        | .RsaSha256 =>
          match crypto.rsaSign key .RsaSha256 header_hash with
          | .error e => .error (.FailedToSign e)
          | .ok sig => .ok sig
        | .Ed25519Sha256 => .error (.UnsupportedHashAlgorithm "Ed25519Sha256")
      | .Ed25519 seed => .ok (ed25519Sign seed header_hash)
    match signatureE with
    | .error e => .error e
    | .ok signature =>
      let dkim_header :=
        (dkim_header_builder.add_tag "b" (base64Encode signature)).build
      .ok (HEADER ++ ": " ++ dkim_header.raw_bytes)

/-- The raw RFC 8463 fixture email of `test_sign_ed25519` (sign.rs 314-325),
with CRLF line endings. -/
def fixtureEmailRaw : String :=
  "From: Joe SixPack <joe@football.example.com>\r\n" ++
  "To: Suzie Q <suzie@shopping.example.net>\r\n" ++
  "Subject: Is dinner ready?\r\n" ++
  "Date: Fri, 11 Jul 2003 21:00:37 -0700 (PDT)\r\n" ++
  "Message-ID: <20030712040037.46341.5F8J@football.example.com>\r\n" ++
  "\r\n" ++
  "Hi.\r\n\r\nWe lost the game.  Are you hungry yet?\r\n\r\nJoe."

/-- Modelled from the spec (§8 scenario 7): the RFC 8463 Ed25519 seed of the
fixture (`test/keys/ed.private` is not under `src/`; its content is the
RFC 8032/8463 test key, whose public half appears in the lib.rs mock
resolver). -/
def edSeedFixture : List Nat :=
  (base64Decode "nWGxne/9WmC6hEr0kuwsxERJxWl7MmkZcDusAxyuf2A=").getD []

/-- The signer configured by `test_sign_ed25519` (sign.rs 339-359):
relaxed/relaxed, selector `brisbane`, domain `football.example.com`, explicit
time 1528637909 (2018-06-10 13:38:29 UTC). -/
def fixtureSigner : DKIMSigner :=
  { signed_headers := ["From", "To", "Subject", "Date", "Message-ID", "From", "Subject", "Date"]
    private_key := .Ed25519 edSeedFixture
    selector := "brisbane"
    signing_domain := "football.example.com"
    header_canonicalization := .Relaxed
    body_canonicalization := .Relaxed
    expiry := none
    hash_algo := .Ed25519Sha256
    time := some 1528637909 }

/-- An arbitrary RSA signing collaborator; the Ed25519 fixture never reaches
it. -/
def noRsa : SignCrypto := { rsaSign := fun _ _ _ => .error "unused" }

/-- The exact DKIM-Signature line the fixture test records (sign.rs 362). -/
def fixtureExpected : String :=
  "DKIM-Signature: v=1; a=ed25519-sha256; d=football.example.com; s=brisbane; " ++
  "c=relaxed/relaxed; bh=2jUSOH9NhtVGCQWNr9BrIAPreKQjO6Sn7XIkfJVOzv8=; " ++
  "h=from:to:subject:date:message-id:from:subject:date; t=1528637909; " ++
  "b=wITr2H3sBuBfMsnUwlRTO7Oq/C/jd2vubDm50DrXtMFEBLRiz9GfrgCozcg764+gYqWXV3Snd1ynYh8sJ5BXBg==;"
/-- Extended-coordinate point literal. -/
def mkPt (x y z t : Nat) : EdPoint := { X := x, Y := y, Z := z, T := t }

/-- Splitting the bit list splits the double-and-add fold. -/
theorem pmulBits_append (base : EdPoint) (l1 l2 : List Bool) (acc : EdPoint) :
    pmulBits base (l1 ++ l2) acc = pmulBits base l2 (pmulBits base l1 acc) := by
  induction l1 generalizing acc with
  | nil => rfl
  | cons b rest ih => simp only [List.cons_append, pmulBits]; exact ih _

/-- The 32 header-hash bytes of the signing fixture. -/
def fixtureHeaderHash : List Nat :=
  [0, 71, 210, 18, 94, 84, 229, 251, 4, 78, 140, 105, 41, 226, 96, 130, 236, 8, 68, 243, 232, 20, 130, 159, 127, 126, 237, 145, 18, 122, 198, 238]

/-- The 64 signature bytes of the signing fixture. -/
def fixtureSignatureBytes : List Nat :=
  [192, 132, 235, 216, 125, 236, 6, 224, 95, 50, 201, 212, 194, 84, 83, 59, 179, 170, 252, 47, 227, 119, 107, 238, 108, 57, 185, 208, 58, 215, 180, 193, 68, 4, 180, 98, 207, 209, 159, 174, 0, 168, 205, 200, 59, 235, 143, 160, 98, 165, 151, 87, 116, 167, 119, 92, 167, 98, 31, 44, 39, 144, 87, 6]

/-- Bits 1 of 4 of the fixture scalar a, most significant first. -/
def fixBitsA1 : List Bool :=
  [true, false, false, true, true, true, true, true, true, true, false, true, false, false, true, false, true, false, false, true, true, false, true, true, false, false, true, false, false, false, false, false, false, false, false, false, true, true, false, true, true, true, true, false, false, false, false, false, false, true, false, false, false, false, false, true, false, true, false, false, true, false, true, true]

/-- Bits 2 of 4 of the fixture scalar a, most significant first. -/
def fixBitsA2 : List Bool :=
  [false, true, false, false, false, true, true, true, true, false, false, false, false, false, false, true, false, false, false, false, false, false, false, true, true, false, true, true, false, false, true, false, true, true, false, true, false, false, false, false, false, true, false, false, true, true, true, true, true, true, true, true, true, true, true, true, true, true, true, true, true, false, true, false]

/-- Bits 3 of 4 of the fixture scalar a, most significant first. -/
def fixBitsA3 : List Bool :=
  [false, true, true, true, true, false, false, false, false, false, false, false, false, false, true, false, false, false, false, true, false, true, false, true, true, false, false, false, false, false, false, true, true, true, true, false, false, false, true, false, false, true, false, true, true, true, false, false, true, true, true, true, false, true, false, false, true, false, false, false, false, true, false, true]

/-- Bits 4 of 4 of the fixture scalar a, most significant first. -/
def fixBitsA4 : List Bool :=
  [true, false, false, true, false, true, true, false, false, true, true, false, false, true, true, false, false, true, false, true, false, false, false, false, true, false, false, true, true, true, true, true, false, false, false, false, true, true, false, true, false, false, false, false, false, true, true, false, true, true, true, true, true, false, false, false, false, true, true, false, false, false, false]

/-- Checkpointed double-and-add for the fixture scalar a. -/
theorem fix_pmul_A : pmul 36144925721603087658594284515452164870581325872720374094707712194495455132720 edB =
    mkPt 14171032565193560821072543753132535278325303871536036183224211415226897577701 39895993359529506370652083175405250091332923356907375029164721695493137668425 36051699861327026145371716693806599075017713318838397158184527760111006373673 38832231078915371088184607854541190124094824796113055951429398311711719546777 := by
  have hb : natBitsFuel 300 36144925721603087658594284515452164870581325872720374094707712194495455132720 = fixBitsA1 ++ (fixBitsA2 ++ (fixBitsA3 ++ fixBitsA4)) := by rfl
  unfold pmul
  rw [hb, pmulBits_append, pmulBits_append, pmulBits_append]
  rw [show pmulBits edB fixBitsA1 edId = mkPt 2194018679188169782792538449884012931710293756071124112621741499317871621326 45614204775934132183060538465315311541864398513840621922015932352633003510806 28291436158910573178269567469442700974467304219936718881420284866595746365721 21631840653193576935876884989978545631141651757525277941811542722133429820334 from by rfl]
  rw [show pmulBits edB fixBitsA2 (mkPt 2194018679188169782792538449884012931710293756071124112621741499317871621326 45614204775934132183060538465315311541864398513840621922015932352633003510806 28291436158910573178269567469442700974467304219936718881420284866595746365721 21631840653193576935876884989978545631141651757525277941811542722133429820334) = mkPt 6611312850517602984566667759325024680823059392019466582227350328454765035432 25598051873903156784901011873131291709955909095206799620543019506268812957816 33245889951674234352504430376584092845284646563987162751650643148070065789658 17844969261128046947434461961042492839356772031999505323587943508929317460631 from by rfl]
  rw [show pmulBits edB fixBitsA3 (mkPt 6611312850517602984566667759325024680823059392019466582227350328454765035432 25598051873903156784901011873131291709955909095206799620543019506268812957816 33245889951674234352504430376584092845284646563987162751650643148070065789658 17844969261128046947434461961042492839356772031999505323587943508929317460631) = mkPt 29878442525016597466759260047393883507847447159788480478262558857420372292104 52956650694947796083120903567188331442178372012206697675781845488653187014075 43374326888006903210923155908729879510522330821928368083152627952674843573751 21483734062519810188997647440787278742009510144095571536622212471935665209885 from by rfl]
  rw [show pmulBits edB fixBitsA4 (mkPt 29878442525016597466759260047393883507847447159788480478262558857420372292104 52956650694947796083120903567188331442178372012206697675781845488653187014075 43374326888006903210923155908729879510522330821928368083152627952674843573751 21483734062519810188997647440787278742009510144095571536622212471935665209885) = mkPt 14171032565193560821072543753132535278325303871536036183224211415226897577701 39895993359529506370652083175405250091332923356907375029164721695493137668425 36051699861327026145371716693806599075017713318838397158184527760111006373673 38832231078915371088184607854541190124094824796113055951429398311711719546777 from by rfl]

/-- Bits 1 of 4 of the fixture scalar r, most significant first. -/
def fixBitsR1 : List Bool :=
  [true, true, false, false, false, false, true, false, true, true, true, true, true, true, false, true, false, true, true, false, true, false, true, true, false, false, true, false, false, true, true, true, false, false, false, true, true, false, true, false, true, false, false, true, false, false, false, true, false, true, true, true, false, true, true, true, false, true, false, false, true, true, true, true]

/-- Bits 2 of 4 of the fixture scalar r, most significant first. -/
def fixBitsR2 : List Bool :=
  [false, true, false, true, true, false, true, false, true, false, false, false, false, true, false, true, true, true, false, false, true, true, true, true, true, false, false, false, false, false, true, false, false, false, false, false, true, false, true, false, false, true, true, true, false, false, true, false, false, true, false, false, true, false, false, false, false, true, true, true, false, true, true, true]

/-- Bits 3 of 4 of the fixture scalar r, most significant first. -/
def fixBitsR3 : List Bool :=
  [true, false, true, false, false, true, false, false, false, false, true, true, true, true, true, false, true, false, false, false, true, false, true, true, true, false, false, false, false, true, true, true, false, true, false, false, true, false, true, true, false, false, false, true, true, true, false, true, false, false, false, false, true, false, false, true, true, false, false, true, false, false, false, true]

/-- Bits 4 of 4 of the fixture scalar r, most significant first. -/
def fixBitsR4 : List Bool :=
  [true, true, true, true, false, false, true, false, true, false, false, false, false, true, true, true, false, true, true, true, false, true, false, true, false, false, true, false, true, true, false, true, true, false, false, true, false, true, true, false, true, true, true, true, true, true, true, true, false, true, true, false, false, false, false, true, true, true, true, false]

/-- Checkpointed double-and-add for the fixture scalar r. -/
theorem fix_pmul_R : pmul 5512277779602349877270810214376226014628895782744020409103222471409611568670 edB =
    mkPt 32494404749123628552410936580990370405348103424180278839461766835065488533289 39326022713877745794627598842133501398976155358773657402351627522905901398352 23780857691117192898365389054199168626499886673165429086482579695162333953624 20712746627255195455481762011682248512881836459078553306798192933039046985924 := by
  have hb : natBitsFuel 300 5512277779602349877270810214376226014628895782744020409103222471409611568670 = fixBitsR1 ++ (fixBitsR2 ++ (fixBitsR3 ++ fixBitsR4)) := by rfl
  unfold pmul
  rw [hb, pmulBits_append, pmulBits_append, pmulBits_append]
  rw [show pmulBits edB fixBitsR1 edId = mkPt 1996037696265308935183303228165612467012192555318487216931136026361529771353 10551397250084996779780343816337993672692082277877618530097943555838711812046 7612246590000125917519023663273489724917167047191010439926200958316725783259 50190056295743961737971406955701980718463476743451913787460391143496551990310 from by rfl]
  rw [show pmulBits edB fixBitsR2 (mkPt 1996037696265308935183303228165612467012192555318487216931136026361529771353 10551397250084996779780343816337993672692082277877618530097943555838711812046 7612246590000125917519023663273489724917167047191010439926200958316725783259 50190056295743961737971406955701980718463476743451913787460391143496551990310) = mkPt 29255697786680667536868157823250944857171089677271135340494305892558523469795 41648068860422489442251538870722241405049669696118836180486669607919778242784 49129014475992255853788496660843722082834020197204878545046825417725542592945 12855399463736846101169507852253207570389878865123088979162230757682075880133 from by rfl]
  rw [show pmulBits edB fixBitsR3 (mkPt 29255697786680667536868157823250944857171089677271135340494305892558523469795 41648068860422489442251538870722241405049669696118836180486669607919778242784 49129014475992255853788496660843722082834020197204878545046825417725542592945 12855399463736846101169507852253207570389878865123088979162230757682075880133) = mkPt 27488839280732105889571384322617451001688809849894259105403637603846291405147 57658387012502148866929990177482441591882100788445165115734709506999390681136 40115012790722827220306121458513218814512758275959570626092901809496060309000 42916658147183234244533960333413960622437017939535848977057116070922836686286 from by rfl]
  rw [show pmulBits edB fixBitsR4 (mkPt 27488839280732105889571384322617451001688809849894259105403637603846291405147 57658387012502148866929990177482441591882100788445165115734709506999390681136 40115012790722827220306121458513218814512758275959570626092901809496060309000 42916658147183234244533960333413960622437017939535848977057116070922836686286) = mkPt 32494404749123628552410936580990370405348103424180278839461766835065488533289 39326022713877745794627598842133501398976155358773657402351627522905901398352 23780857691117192898365389054199168626499886673165429086482579695162333953624 20712746627255195455481762011682248512881836459078553306798192933039046985924 from by rfl]

/-- The Ed25519 signature of the fixture header hash under the fixture seed. -/
theorem fix_ed25519_sign :
    ed25519Sign edSeedFixture fixtureHeaderHash = fixtureSignatureBytes := by
  have ha : ed25519Scalar edSeedFixture = 36144925721603087658594284515452164870581325872720374094707712194495455132720 := by rfl
  have hr : ed25519Nonce edSeedFixture fixtureHeaderHash = 5512277779602349877270810214376226014628895782744020409103222471409611568670 := by rfl
  have hea : edEncode (mkPt 14171032565193560821072543753132535278325303871536036183224211415226897577701 39895993359529506370652083175405250091332923356907375029164721695493137668425 36051699861327026145371716693806599075017713318838397158184527760111006373673 38832231078915371088184607854541190124094824796113055951429398311711719546777) = [215, 90, 152, 1, 130, 177, 10, 183, 213, 75, 254, 211, 201, 100, 7, 58, 14, 225, 114, 243, 218, 166, 35, 37, 175, 2, 26, 104, 247, 7, 81, 26] := by rfl
  have her : edEncode (mkPt 32494404749123628552410936580990370405348103424180278839461766835065488533289 39326022713877745794627598842133501398976155358773657402351627522905901398352 23780857691117192898365389054199168626499886673165429086482579695162333953624 20712746627255195455481762011682248512881836459078553306798192933039046985924) = [192, 132, 235, 216, 125, 236, 6, 224, 95, 50, 201, 212, 194, 84, 83, 59, 179, 170, 252, 47, 227, 119, 107, 238, 108, 57, 185, 208, 58, 215, 180, 193] := by rfl
  unfold ed25519Sign
  simp only [ha, hr, fix_pmul_A, fix_pmul_R, hea, her]
  rfl

/-- The tentative header builder produced during the fixture run. -/
def fixtureBuilder : DKIMHeaderBuilder :=
  { tags := [("v", "1"), ("a", "ed25519-sha256"), ("d", "football.example.com"),
             ("s", "brisbane"), ("c", "relaxed/relaxed"),
             ("bh", "2jUSOH9NhtVGCQWNr9BrIAPreKQjO6Sn7XIkfJVOzv8="),
             ("h", "from:to:subject:date:message-id:from:subject:date"),
             ("t", "1528637909")]
    time := some 1528637909 }

/-- The fixture body hash is the RFC 8463 `bh=` value. -/
theorem fix_body_hash :
    DKIMSigner.compute_body_hash fixtureSigner (parseEmail fixtureEmailRaw) =
      "2jUSOH9NhtVGCQWNr9BrIAPreKQjO6Sn7XIkfJVOzv8=" := by rfl

/-- The fixture tentative header builder. -/
theorem fix_builder :
    DKIMSigner.dkim_header_builder fixtureSigner
      "2jUSOH9NhtVGCQWNr9BrIAPreKQjO6Sn7XIkfJVOzv8=" 0 = .ok fixtureBuilder := by rfl

/-- The fixture header-set hash. -/
theorem fix_header_hash :
    DKIMSigner.compute_header_hash fixtureSigner (parseEmail fixtureEmailRaw)
      fixtureBuilder = fixtureHeaderHash := by rfl

/-- With an explicit `t=` configured, the tentative header does not depend on
the ambient clock. -/
theorem dkim_header_builder_time_fixed (signer : DKIMSigner) (bh : String)
    (t now1 now2 : Int) (h : signer.time = some t) :
    signer.dkim_header_builder bh now1 = signer.dkim_header_builder bh now2 := by
  unfold DKIMSigner.dkim_header_builder
  cases signer.expiry <;> rw [h]

/-- With an explicit `t=` configured, signing does not depend on the ambient
clock. -/
theorem sign_time_fixed (crypto : SignCrypto) (signer : DKIMSigner) (email : Email)
    (t now1 now2 : Int) (h : signer.time = some t) :
    DKIMSigner.sign crypto signer now1 email = DKIMSigner.sign crypto signer now2 email := by
  unfold DKIMSigner.sign
  simp only [dkim_header_builder_time_fixed signer (signer.compute_body_hash email)
    t now1 now2 h]

/-- C5: signing is deterministic: for every email, private key and
configuration that supplies an explicit `t=` time, `DKIMSigner::sign` does
not depend on the ambient clock, so two runs produce identical
DKIM-Signature strings; and signing the RFC 8463 fixture email with the
Ed25519 seed at t=1528637909 produces exactly the DKIM-Signature value
recorded in the Ed25519 test fixture of sign.rs. -/
theorem c5_sign_deterministic_and_fixture :
    (∀ (crypto : SignCrypto) (signer : DKIMSigner) (email : Email) (t now1 now2 : Int),
        signer.time = some t →
        DKIMSigner.sign crypto signer now1 email = DKIMSigner.sign crypto signer now2 email)
    ∧ DKIMSigner.sign noRsa fixtureSigner 0 (parseEmail fixtureEmailRaw) =
        .ok fixtureExpected := by
  constructor
  · exact fun crypto signer email t n1 n2 h => sign_time_fixed crypto signer email t n1 n2 h
  · have hpk : fixtureSigner.private_key = DkimPrivateKey.Ed25519 edSeedFixture := rfl
    unfold DKIMSigner.sign
    simp only [fix_body_hash, fix_builder, fix_header_hash, hpk, fix_ed25519_sign]
    rfl

/-- Closed instantiation of C5: signing the fixture at two different ambient
clock instants yields the same string (the explicit `t=` is used). -/
theorem c5_sign_deterministic_and_fixture_witness :
    DKIMSigner.sign noRsa fixtureSigner 0 (parseEmail fixtureEmailRaw) =
      DKIMSigner.sign noRsa fixtureSigner 12345 (parseEmail fixtureEmailRaw) :=
  c5_sign_deterministic_and_fixture.1 noRsa fixtureSigner (parseEmail fixtureEmailRaw)
    1528637909 0 12345 rfl

/-- A cryptographic collaborator whose verifications all fail; only the
dispatch structure of `verify_signature` matters to C2. -/
def cryptoAllFalse : CryptoVerify :=
  { rsaVerify := fun _ _ _ _ => false
    ed25519VerifyStrict := fun _ _ _ => false }

/-- A cryptographic collaborator whose verifications all succeed. -/
def cryptoAllTrue : CryptoVerify :=
  { rsaVerify := fun _ _ _ _ => true
    ed25519VerifyStrict := fun _ _ _ => true }

/-- C2 counterexample: an Ed25519 public key paired with hash algorithm
rsa-sha1 does NOT yield UnsupportedHashAlgorithm; `verify_signature`
dispatches on the key first and attempts the Ed25519 verification
(here with a 64-byte signature and a collaborator that rejects, the result
is `Ok(false)`). -/
theorem c2_counterexample :
    verify_signature cryptoAllFalse .RsaSha1 (List.replicate 32 0)
        (List.replicate 64 0) (.Ed25519 0) = .ok false
    ∧ ¬ ∃ msg, verify_signature cryptoAllFalse .RsaSha1 (List.replicate 32 0)
        (List.replicate 64 0) (.Ed25519 0) = .error (.UnsupportedHashAlgorithm msg) := by
  refine ⟨by rfl, ?_⟩
  rintro ⟨msg, h⟩
  rw [show verify_signature cryptoAllFalse .RsaSha1 (List.replicate 32 0)
        (List.replicate 64 0) (.Ed25519 0) = .ok false from by rfl] at h
  exact Except.noConfusion h

/-- C2 amended: `verify_signature` returns UnsupportedHashAlgorithm exactly
for an RSA public key paired with the ed25519-sha256 algorithm; with an
Ed25519 public key it never returns UnsupportedHashAlgorithm (it attempts an
Ed25519 verification whatever the hash algorithm, failing only with a
SignatureSyntaxError when the signature is not 64 bytes). -/
theorem c2_unsupported_hash_dispatch :
    (∀ (crypto : CryptoVerify) (hh sig : List Nat) (key : Nat) (algo : HashAlgo),
        (∃ msg, verify_signature crypto algo hh sig (.Rsa key) =
          .error (.UnsupportedHashAlgorithm msg)) ↔ algo = .Ed25519Sha256)
    ∧ (∀ (crypto : CryptoVerify) (hh sig : List Nat) (key : Nat) (algo : HashAlgo)
        (msg : String),
        verify_signature crypto algo hh sig (.Ed25519 key) ≠
          .error (.UnsupportedHashAlgorithm msg)) := by
  constructor
  · intro crypto hh sig key algo
    constructor
    · rintro ⟨msg, h⟩
      cases algo with
      | RsaSha1 => exact Except.noConfusion h
      | RsaSha256 => exact Except.noConfusion h
      | Ed25519Sha256 => rfl
    · rintro rfl
      exact ⟨"Ed25519Sha256", rfl⟩
  · intro crypto hh sig key algo msg h
    simp only [verify_signature] at h
    by_cases hl : sig.length = 64
    · rw [if_pos hl] at h
      exact Except.noConfusion h
    · rw [if_neg hl] at h
      exact DKIMError.noConfusion (Except.error.inj h)

/-- Closed instantiation of C2 (amended): (Rsa, ed25519-sha256) is the
unsupported pair. -/
theorem c2_unsupported_hash_dispatch_witness :
    ∃ msg, verify_signature cryptoAllFalse .Ed25519Sha256 [] [] (.Rsa 0) =
      .error (.UnsupportedHashAlgorithm msg) :=
  (c2_unsupported_hash_dispatch.1 cryptoAllFalse [] [] 0 .Ed25519Sha256).mpr rfl

/-- Hash collaborators for the multi-signature scenarios: the body hash of
the email is "GOODHASH" and the header hash is the byte [1], whatever the
canonicalization and algorithm. -/
def c1Hashes : HashOps :=
  { compute_body_hash := fun _ _ _ => .ok "GOODHASH"
    compute_headers_hash := fun _ _ _ _ => .ok [1] }

/-- A valid DKIM-Signature value for d=example.com whose bh= does not match
the email body hash. -/
def c1Header1 : String :=
  "v=1; a=rsa-sha256; d=example.com; s=s1; h=from:subject; bh=BADHASH; b=QUFB"

/-- A valid DKIM-Signature value for d=example.com whose bh= matches. -/
def c1Header2 : String :=
  "v=1; a=rsa-sha256; d=example.com; s=s2; h=from:subject; bh=GOODHASH; b=QUFB"

/-- A valid DKIM-Signature value whose d= is a different domain. -/
def c6Header : String :=
  "v=1; a=rsa-sha256; d=other.example; s=s1; h=from; bh=GOODHASH; b=QUFB"

/-- The validated header of a raw value (meaningful when validation
succeeds). -/
def headerOf (v : String) : DKIMHeader :=
  match validate_header 0 v with
  | .ok h => h
  | .error _ => { tags := [], raw_bytes := "" }

/-- A `validate_header` failure is recorded and the resolver loop continues. -/
theorem c1_res_capture (now : Int) (crypto : CryptoVerify) (hashes : HashOps)
    (keyFor : String → String → Except DKIMError DkimPublicKey) (fd v : String)
    (rest : List String) (le : Option DKIMError) (e : DKIMError)
    (hv : validate_header now v = .error e) :
    verify_email_with_resolver_go now crypto hashes keyFor fd (v :: rest) le =
      verify_email_with_resolver_go now crypto hashes keyFor fd rest (some e) := by
  simp only [verify_email_with_resolver_go, hv]

/-- A per-signature `verify_email_header` failure is recorded and the
resolver loop continues. -/
theorem c1_res_capture2 (now : Int) (crypto : CryptoVerify) (hashes : HashOps)
    (keyFor : String → String → Except DKIMError DkimPublicKey) (fd v : String)
    (rest : List String) (le : Option DKIMError) (e : DKIMError) (h : DKIMHeader)
    (hv : validate_header now v = .ok h)
    (hd : lowerStr (h.get_required_tag "d") = lowerStr fd)
    (hve : verify_email_header crypto hashes keyFor h = .error e) :
    verify_email_with_resolver_go now crypto hashes keyFor fd (v :: rest) le =
      verify_email_with_resolver_go now crypto hashes keyFor fd rest (some e) := by
  simp only [verify_email_with_resolver_go, hv, hd, hve, ne_eq, not_true_eq_false,
    if_false, ite_false]

/-- A matching signature that fully verifies returns Pass at once. -/
theorem c1_res_pass (now : Int) (crypto : CryptoVerify) (hashes : HashOps)
    (keyFor : String → String → Except DKIMError DkimPublicKey) (fd v : String)
    (rest : List String) (le : Option DKIMError) (h : DKIMHeader)
    (hc bc : CanonicalizationType)
    (hv : validate_header now v = .ok h)
    (hd : lowerStr (h.get_required_tag "d") = lowerStr fd)
    (hve : verify_email_header crypto hashes keyFor h = .ok (hc, bc)) :
    verify_email_with_resolver_go now crypto hashes keyFor fd (v :: rest) le =
      .ok (.Pass (h.get_required_tag "d") hc bc) := by
  simp only [verify_email_with_resolver_go, hv, hd, hve, ne_eq, not_true_eq_false,
    if_false, ite_false]

/-- The resolver loop never surfaces an error. -/
theorem c1_res_total (now : Int) (crypto : CryptoVerify) (hashes : HashOps)
    (keyFor : String → String → Except DKIMError DkimPublicKey) (fd : String)
    (hdrs : List String) (le : Option DKIMError) :
    ∃ r, verify_email_with_resolver_go now crypto hashes keyFor fd hdrs le = .ok r := by
  induction hdrs generalizing le with
  | nil => cases le <;> exact ⟨_, rfl⟩
  | cons v rest ih =>
    cases hv : validate_header now v with
    | error e => rw [c1_res_capture now crypto hashes keyFor fd v rest le e hv]; exact ih _
    | ok h =>
      by_cases hd : lowerStr (h.get_required_tag "d") = lowerStr fd
      · cases hve : verify_email_header crypto hashes keyFor h with
        | error e =>
          rw [c1_res_capture2 now crypto hashes keyFor fd v rest le e h hv hd hve]
          exact ih _
        | ok p =>
          exact ⟨_, c1_res_pass now crypto hashes keyFor fd v rest le h p.1 p.2 hv hd
            (by rw [hve])⟩
      · have heq : verify_email_with_resolver_go now crypto hashes keyFor fd (v :: rest) le =
            verify_email_with_resolver_go now crypto hashes keyFor fd rest le := by
          simp only [verify_email_with_resolver_go, hv, ne_eq, hd, not_false_eq_true,
            if_true, ite_true]
        rw [heq]; exact ih _

/-- A matching signature whose body hash does not match aborts
`verify_email_with_key` with an error. -/
theorem c1_key_raise (now : Int) (crypto : CryptoVerify) (hashes : HashOps)
    (fd v : String) (pk : DkimPublicKey) (rest : List String) (le : Option DKIMError)
    (h : DKIMHeader) (hc bc : CanonicalizationType) (algo : HashAlgo)
    (cbh : String) (chh : List Nat)
    (hv : validate_header now v = .ok h)
    (hd : lowerStr (h.get_required_tag "d") = lowerStr fd)
    (hcan : parse_canonicalization (h.get_tag "c") = .ok (hc, bc))
    (halgo : parse_hash_algo (h.get_required_tag "a") = .ok algo)
    (hbh : hashes.compute_body_hash bc (h.get_tag "l") algo = .ok cbh)
    (hhh : hashes.compute_headers_hash hc (h.get_required_tag "h") algo h = .ok chh)
    (hne : h.get_required_tag "bh" ≠ cbh) :
    verify_email_with_key_go now crypto hashes fd pk (v :: rest) le =
      .error .BodyHashDidNotVerify := by
  simp only [verify_email_with_key_go, hv, hd, hcan, halgo, hbh, hhh, ne_eq,
    not_true_eq_false, if_false, ite_false, hne, not_false_eq_true, if_true, ite_true]

/-- C1 counterexample: an email with two DKIM-Signature headers for the
caller domain, the first failing its body-hash comparison and the second
fully verifying.  `verify_email_with_key` raises `Err(BodyHashDidNotVerify)`
from the first signature instead of continuing (so the claim fails for that
entrypoint), while `verify_email_with_resolver` on the same email captures
the error, continues, and returns Pass. -/
theorem c1_counterexample :
    verify_email_with_key 0 cryptoAllTrue c1Hashes "example.com"
        [c1Header1, c1Header2] (.Rsa 0) = .error .BodyHashDidNotVerify
    ∧ verify_email_with_resolver 0 cryptoAllTrue c1Hashes
        (fun _ _ => .ok (.Rsa 0)) "example.com" [c1Header1, c1Header2] =
        .ok (.Pass "example.com" .Simple .Simple) :=
  ⟨by rfl, by rfl⟩

/-- C1 amended: per-signature errors are captured, and the loop continues,
in `verify_email_with_resolver` only: (i) that entrypoint always returns Ok;
(ii) a `validate_header` failure is recorded as last_error and the next
signature is examined; (iii) so is any `verify_email_header` failure (body
hash, signature, key retrieval) on a signature matching the caller domain;
(iv) after exhausting all signatures it returns Fail(last recorded error) if
any, else Neutral; (v) Pass is returned as soon as one matching signature
verifies fully.  In `verify_email_with_key`, (vi) a `validate_header`
failure is likewise captured, but (vii) a body-hash mismatch on a matching
signature is raised immediately as `Err(BodyHashDidNotVerify)` and (viii) a
failed signature check as `Err(SignatureDidNotVerify)`, without examining
the remaining signatures. -/
theorem c1_amended :
    (∀ (now : Int) (crypto : CryptoVerify) (hashes : HashOps)
       (keyFor : String → String → Except DKIMError DkimPublicKey)
       (fd : String) (hdrs : List String),
       ∃ r, verify_email_with_resolver now crypto hashes keyFor fd hdrs = .ok r)
    ∧ (∀ (now : Int) (crypto : CryptoVerify) (hashes : HashOps)
       (keyFor : String → String → Except DKIMError DkimPublicKey)
       (fd v : String) (rest : List String) (le : Option DKIMError) (e : DKIMError),
       validate_header now v = .error e →
       verify_email_with_resolver_go now crypto hashes keyFor fd (v :: rest) le =
         verify_email_with_resolver_go now crypto hashes keyFor fd rest (some e))
    ∧ (∀ (now : Int) (crypto : CryptoVerify) (hashes : HashOps)
       (keyFor : String → String → Except DKIMError DkimPublicKey)
       (fd v : String) (rest : List String) (le : Option DKIMError) (e : DKIMError)
       (h : DKIMHeader),
       validate_header now v = .ok h →
       lowerStr (h.get_required_tag "d") = lowerStr fd →
       verify_email_header crypto hashes keyFor h = .error e →
       verify_email_with_resolver_go now crypto hashes keyFor fd (v :: rest) le =
         verify_email_with_resolver_go now crypto hashes keyFor fd rest (some e))
    ∧ (∀ (now : Int) (crypto : CryptoVerify) (hashes : HashOps)
       (keyFor : String → String → Except DKIMError DkimPublicKey)
       (fd : String) (e : DKIMError),
       verify_email_with_resolver_go now crypto hashes keyFor fd [] (some e) =
         .ok (.Fail e fd)
       ∧ verify_email_with_resolver_go now crypto hashes keyFor fd [] none =
         .ok (.Neutral fd))
    ∧ (∀ (now : Int) (crypto : CryptoVerify) (hashes : HashOps)
       (keyFor : String → String → Except DKIMError DkimPublicKey)
       (fd v : String) (rest : List String) (le : Option DKIMError)
       (h : DKIMHeader) (hc bc : CanonicalizationType),
       validate_header now v = .ok h →
       lowerStr (h.get_required_tag "d") = lowerStr fd →
       verify_email_header crypto hashes keyFor h = .ok (hc, bc) →
       verify_email_with_resolver_go now crypto hashes keyFor fd (v :: rest) le =
         .ok (.Pass (h.get_required_tag "d") hc bc))
    ∧ (∀ (now : Int) (crypto : CryptoVerify) (hashes : HashOps) (fd v : String)
       (pk : DkimPublicKey) (rest : List String) (le : Option DKIMError) (e : DKIMError),
       validate_header now v = .error e →
       verify_email_with_key_go now crypto hashes fd pk (v :: rest) le =
         verify_email_with_key_go now crypto hashes fd pk rest (some e))
    ∧ (∀ (now : Int) (crypto : CryptoVerify) (hashes : HashOps) (fd v : String)
       (pk : DkimPublicKey) (rest : List String) (le : Option DKIMError)
       (h : DKIMHeader) (hc bc : CanonicalizationType) (algo : HashAlgo)
       (cbh : String) (chh : List Nat),
       validate_header now v = .ok h →
       lowerStr (h.get_required_tag "d") = lowerStr fd →
       parse_canonicalization (h.get_tag "c") = .ok (hc, bc) →
       parse_hash_algo (h.get_required_tag "a") = .ok algo →
       hashes.compute_body_hash bc (h.get_tag "l") algo = .ok cbh →
       hashes.compute_headers_hash hc (h.get_required_tag "h") algo h = .ok chh →
       h.get_required_tag "bh" ≠ cbh →
       verify_email_with_key_go now crypto hashes fd pk (v :: rest) le =
         .error .BodyHashDidNotVerify)
    ∧ (∀ (now : Int) (crypto : CryptoVerify) (hashes : HashOps) (fd v : String)
       (pk : DkimPublicKey) (rest : List String) (le : Option DKIMError)
       (h : DKIMHeader) (hc bc : CanonicalizationType) (algo : HashAlgo)
       (cbh : String) (chh sig : List Nat),
       validate_header now v = .ok h →
       lowerStr (h.get_required_tag "d") = lowerStr fd →
       parse_canonicalization (h.get_tag "c") = .ok (hc, bc) →
       parse_hash_algo (h.get_required_tag "a") = .ok algo →
       hashes.compute_body_hash bc (h.get_tag "l") algo = .ok cbh →
       hashes.compute_headers_hash hc (h.get_required_tag "h") algo h = .ok chh →
       h.get_required_tag "bh" = cbh →
       base64Decode (h.get_required_tag "b") = some sig →
       verify_signature crypto algo chh sig pk = .ok false →
       verify_email_with_key_go now crypto hashes fd pk (v :: rest) le =
         .error .SignatureDidNotVerify) := by
  refine ⟨?_, c1_res_capture, c1_res_capture2, ?_, c1_res_pass, ?_, c1_key_raise, ?_⟩
  · intro now crypto hashes keyFor fd hdrs
    exact c1_res_total now crypto hashes keyFor fd hdrs none
  · intro now crypto hashes keyFor fd e
    exact ⟨rfl, rfl⟩
  · intro now crypto hashes fd v pk rest le e hv
    simp only [verify_email_with_key_go, hv]
  · intro now crypto hashes fd v pk rest le h hc bc algo cbh chh sig hv hd hcan halgo
      hbh hhh hbheq hb64 hvs
    simp only [verify_email_with_key_go, hv, hd, hcan, halgo, hbh, hhh, hbheq, hb64,
      hvs, ne_eq, not_true_eq_false, if_false, ite_false]
    rfl

/-- Closed instantiation of C1 (amended), conjunct (vii): on the concrete
two-signature email, `verify_email_with_key` aborts with
`Err(BodyHashDidNotVerify)` at the first matching signature. -/
theorem c1_amended_witness :
    verify_email_with_key_go 0 cryptoAllTrue c1Hashes "example.com" (.Rsa 0)
      [c1Header1, c1Header2] none = .error .BodyHashDidNotVerify :=
  c1_amended.2.2.2.2.2.2.1 0 cryptoAllTrue c1Hashes "example.com" c1Header1
    (.Rsa 0) [c1Header2] none (headerOf c1Header1) .Simple .Simple .RsaSha256
    "GOODHASH" [1] (by rfl) (by rfl) (by rfl) (by rfl) (by rfl) (by rfl) (by decide)

/-- C6: a validated signature whose d= does not case-insensitively match the
caller-supplied from_domain is skipped without recording an error, in both
entrypoints; consequently an email all of whose signatures validate and have
a non-matching d= yields Neutral(from_domain). -/
theorem c6_skip_nonmatching_domain :
    (∀ (now : Int) (crypto : CryptoVerify) (hashes : HashOps) (fd v : String)
       (pk : DkimPublicKey) (rest : List String) (le : Option DKIMError)
       (h : DKIMHeader),
       validate_header now v = .ok h →
       lowerStr (h.get_required_tag "d") ≠ lowerStr fd →
       verify_email_with_key_go now crypto hashes fd pk (v :: rest) le =
         verify_email_with_key_go now crypto hashes fd pk rest le)
    ∧ (∀ (now : Int) (crypto : CryptoVerify) (hashes : HashOps)
       (keyFor : String → String → Except DKIMError DkimPublicKey)
       (fd v : String) (rest : List String) (le : Option DKIMError)
       (h : DKIMHeader),
       validate_header now v = .ok h →
       lowerStr (h.get_required_tag "d") ≠ lowerStr fd →
       verify_email_with_resolver_go now crypto hashes keyFor fd (v :: rest) le =
         verify_email_with_resolver_go now crypto hashes keyFor fd rest le)
    ∧ (∀ (now : Int) (crypto : CryptoVerify) (hashes : HashOps)
       (keyFor : String → String → Except DKIMError DkimPublicKey)
       (fd : String) (pk : DkimPublicKey) (hdrs : List String),
       (∀ v ∈ hdrs, ∃ h, validate_header now v = .ok h ∧
          lowerStr (h.get_required_tag "d") ≠ lowerStr fd) →
       verify_email_with_key now crypto hashes fd hdrs pk = .ok (.Neutral fd)
       ∧ verify_email_with_resolver now crypto hashes keyFor fd hdrs =
           .ok (.Neutral fd)) := by
  have hkey : ∀ (now : Int) (crypto : CryptoVerify) (hashes : HashOps) (fd v : String)
      (pk : DkimPublicKey) (rest : List String) (le : Option DKIMError)
      (h : DKIMHeader),
      validate_header now v = .ok h →
      lowerStr (h.get_required_tag "d") ≠ lowerStr fd →
      verify_email_with_key_go now crypto hashes fd pk (v :: rest) le =
        verify_email_with_key_go now crypto hashes fd pk rest le := by
    intro now crypto hashes fd v pk rest le h hv hd
    simp only [verify_email_with_key_go, hv, ne_eq, hd, not_false_eq_true,
      if_true, ite_true]
  have hres : ∀ (now : Int) (crypto : CryptoVerify) (hashes : HashOps)
      (keyFor : String → String → Except DKIMError DkimPublicKey)
      (fd v : String) (rest : List String) (le : Option DKIMError)
      (h : DKIMHeader),
      validate_header now v = .ok h →
      lowerStr (h.get_required_tag "d") ≠ lowerStr fd →
      verify_email_with_resolver_go now crypto hashes keyFor fd (v :: rest) le =
        verify_email_with_resolver_go now crypto hashes keyFor fd rest le := by
    intro now crypto hashes keyFor fd v rest le h hv hd
    simp only [verify_email_with_resolver_go, hv, ne_eq, hd, not_false_eq_true,
      if_true, ite_true]
  refine ⟨hkey, hres, ?_⟩
  intro now crypto hashes keyFor fd pk hdrs hall
  unfold verify_email_with_key verify_email_with_resolver
  induction hdrs with
  | nil => exact ⟨rfl, rfl⟩
  | cons v rest ih =>
    obtain ⟨h, hv, hd⟩ := hall v (List.mem_cons_self v rest)
    have ihr := ih (fun w hw => hall w (List.mem_cons_of_mem v hw))
    rw [hkey now crypto hashes fd v pk rest none h hv hd,
      hres now crypto hashes keyFor fd v rest none h hv hd]
    exact ihr

/-- Closed instantiation of C6: one validated signature with d=other.example
against from_domain example.com yields Neutral for both entrypoints. -/
theorem c6_skip_nonmatching_domain_witness :
    verify_email_with_key 0 cryptoAllTrue c1Hashes "example.com" [c6Header] (.Rsa 0) =
      .ok (.Neutral "example.com")
    ∧ verify_email_with_resolver 0 cryptoAllTrue c1Hashes (fun _ _ => .ok (.Rsa 0))
      "example.com" [c6Header] = .ok (.Neutral "example.com") :=
  c6_skip_nonmatching_domain.2.2 0 cryptoAllTrue c1Hashes (fun _ _ => .ok (.Rsa 0))
    "example.com" (.Rsa 0) [c6Header]
    (fun v hv => by
      rw [List.mem_singleton.mp hv]
      exact ⟨headerOf c6Header, by rfl, by decide⟩)

/-- The value of the last occurrence of a tag name in a parsed tag list. -/
def lastTagValue (tags : List Tag) (n : String) : Option String :=
  (tags.reverse.find? (fun t => t.name = n)).map (fun t => t.value)

theorem find?_replaceKey (m : List (String × Tag)) (k : String) (t : Tag) (n : String) :
    (m.map (fun p => if p.1 = k then (k, t) else p)).find? (fun p => p.1 = n) =
      (m.find? (fun p => p.1 = n)).map (fun p => if p.1 = k then (k, t) else p) := by
  induction m with
  | nil => rfl
  | cons p m' ih =>
    by_cases hpk : p.1 = k
    · by_cases hpn : p.1 = n
      · simp [List.find?_cons, hpk, hpn, hpk ▸ hpn]
      · have hkn : ¬ (k = n) := fun h => hpn (hpk.trans h)
        have hnk : ¬ (n = k) := fun h => hkn h.symm
        simp [List.find?_cons, hpk, hpn, hkn, hnk, ih]
    · by_cases hpn : p.1 = n
      · have hnk : ¬ (n = k) := fun h => hpk (hpn.trans h)
        simp [List.find?_cons, hpk, hpn, hnk]
      · simp [List.find?_cons, hpk, hpn, ih]

theorem lookupVal_insertTag (m : List (String × Tag)) (k : String) (t : Tag) (n : String) :
    ((insertTag m k t).find? (fun p => p.1 = n)).map (fun p => p.2.value) =
      if k = n then some t.value
      else (m.find? (fun p => p.1 = n)).map (fun p => p.2.value) := by
  by_cases hany : m.any (fun p => p.1 = k)
  · unfold insertTag
    rw [if_pos hany, find?_replaceKey]
    by_cases hkn : k = n
    · subst hkn
      have hs : (m.find? (fun p => p.1 = k)).isSome := by
        rw [List.find?_isSome]
        obtain ⟨x, hx, hpx⟩ := List.any_eq_true.mp hany
        exact ⟨x, hx, hpx⟩
      obtain ⟨p, hp⟩ := Option.isSome_iff_exists.mp hs
      have hpk : p.1 = k := by simpa using List.find?_some hp
      simp [hp, hpk]
    · simp only [hkn, if_false, ite_false]
      cases hf : m.find? (fun p => p.1 = n) with
      | none => rfl
      | some p =>
        have hpn : p.1 = n := by simpa using List.find?_some hf
        have hpk : ¬ (p.1 = k) := fun h => hkn (h ▸ hpn ▸ rfl)
        simp [hpk]
  · unfold insertTag
    rw [if_neg hany, List.find?_append]
    cases hf : m.find? (fun p => p.1 = n) with
    | some p =>
      have hpn : p.1 = n := by simpa using List.find?_some hf
      by_cases hkn : k = n
      · exfalso
        apply hany
        rw [List.any_eq_true]
        exact ⟨p, List.mem_of_find?_eq_some hf, by simp [hpn, hkn]⟩
      · simp [hkn]
    | none =>
      by_cases hkn : k = n
      · simp [List.find?_cons, hkn]
      · simp [List.find?_cons, hkn]

theorem lastTagValue_cons (t : Tag) (rest : List Tag) (n : String) :
    lastTagValue (t :: rest) n =
      match lastTagValue rest n with
      | some v => some v
      | none => if t.name = n then some t.value else none := by
  unfold lastTagValue
  rw [List.reverse_cons, List.find?_append]
  cases hf : rest.reverse.find? (fun x => x.name = n) with
  | some v => simp
  | none =>
    by_cases htn : t.name = n
    · simp [List.find?_cons, htn]
    · simp [List.find?_cons, htn]

theorem lookupVal_foldl (tags : List Tag) (m : List (String × Tag)) (n : String) :
    (((tags.foldl (fun m t => insertTag m t.name t) m).find?
        (fun p => p.1 = n)).map (fun p => p.2.value)) =
      match lastTagValue tags n with
      | some v => some v
      | none => (m.find? (fun p => p.1 = n)).map (fun p => p.2.value) := by
  induction tags generalizing m with
  | nil => simp [lastTagValue]
  | cons t rest ih =>
    simp only [List.foldl_cons]
    rw [ih, lastTagValue_cons]
    cases hl : lastTagValue rest n with
    | some v => simp
    | none =>
      simp only
      rw [lookupVal_insertTag]
      by_cases htn : t.name = n <;> simp [htn]

theorem get_tag_buildDKIMHeader (tags : List Tag) (raw : String) (n : String) :
    (buildDKIMHeader tags raw).get_tag n = lastTagValue tags n := by
  unfold buildDKIMHeader DKIMHeader.get_tag
  simp only
  rw [lookupVal_foldl]
  cases lastTagValue tags n <;> simp

theorem keys_insertTag (m : List (String × Tag)) (k : String) (t : Tag) :
    (insertTag m k t).map Prod.fst =
      if m.any (fun p => p.1 = k) then m.map Prod.fst else m.map Prod.fst ++ [k] := by
  by_cases hany : m.any (fun p => p.1 = k)
  · unfold insertTag
    rw [if_pos hany, if_pos hany, List.map_map]
    congr 1
    funext p
    by_cases hpk : p.1 = k <;> simp [hpk]
  · unfold insertTag
    rw [if_neg hany, if_neg hany]
    simp

theorem nodup_keys_insertTag (m : List (String × Tag)) (k : String) (t : Tag)
    (h : (m.map Prod.fst).Nodup) : ((insertTag m k t).map Prod.fst).Nodup := by
  rw [keys_insertTag]
  by_cases hany : m.any (fun p => p.1 = k)
  · rw [if_pos hany]; exact h
  · rw [if_neg hany]
    rw [List.nodup_append]
    refine ⟨h, List.nodup_singleton k, ?_⟩
    intro a ha hb
    rw [List.mem_singleton] at hb
    subst hb
    obtain ⟨p, hp, hpk⟩ := List.mem_map.mp ha
    exact absurd (List.any_eq_true.mpr ⟨p, hp, by simp [hpk]⟩) hany

theorem nodup_keys_buildDKIMHeader (tags : List Tag) (raw : String) :
    ((buildDKIMHeader tags raw).tags.map Prod.fst).Nodup := by
  unfold buildDKIMHeader
  simp only
  suffices hgen : ∀ (ts : List Tag) (m : List (String × Tag)),
      (m.map Prod.fst).Nodup →
      ((ts.foldl (fun m t => insertTag m t.name t) m).map Prod.fst).Nodup by
    exact hgen tags [] (by simp)
  intro ts
  induction ts with
  | nil => intro m h; simpa using h
  | cons t rest ih =>
    intro m h
    exact ih _ (nodup_keys_insertTag m t.name t h)

theorem checkExpiration_res (now : Int) (hdr : DKIMHeader) :
    checkExpiration now hdr = .ok hdr ∨ checkExpiration now hdr = .error .SignatureExpired := by
  unfold checkExpiration
  cases hx : hdr.get_tag "x" with
  | none => exact Or.inl rfl
  | some xs =>
    simp only
    split
    · exact Or.inr rfl
    · split
      · exact Or.inr rfl
      · exact Or.inl rfl

theorem checkQueryMethod_res (now : Int) (hdr : DKIMHeader) :
    checkQueryMethod now hdr = .ok hdr ∨
      checkQueryMethod now hdr = .error .UnsupportedQueryMethod ∨
      checkQueryMethod now hdr = .error .SignatureExpired := by
  unfold checkQueryMethod
  cases hq : hdr.get_tag "q" with
  | none =>
    rcases checkExpiration_res now hdr with h | h
    · exact Or.inl h
    · exact Or.inr (Or.inr h)
  | some q =>
    simp only
    split
    · exact Or.inr (Or.inl rfl)
    · rcases checkExpiration_res now hdr with h | h
      · exact Or.inl h
      · exact Or.inr (Or.inr h)

theorem checkFromSigned_res (now : Int) (hdr : DKIMHeader) :
    checkFromSigned now hdr = .ok hdr ∨
      checkFromSigned now hdr = .error .FromFieldNotSigned ∨
      checkFromSigned now hdr = .error .UnsupportedQueryMethod ∨
      checkFromSigned now hdr = .error .SignatureExpired := by
  unfold checkFromSigned
  simp only
  split
  · exact Or.inr (Or.inl rfl)
  · rcases checkQueryMethod_res now hdr with h | h | h
    · exact Or.inl h
    · exact Or.inr (Or.inr (Or.inl h))
    · exact Or.inr (Or.inr (Or.inr h))

/-- Under the required-tag, version and identity checks, `validate_header`
reduces to the `h=`/`q=`/`x=` stages. -/
theorem validate_header_tags_reduces (now : Int) (tags : List Tag) (raw : String)
    (hreq : REQUIRED_TAGS.find? (fun r => (tags.find? (fun t => t.name = r)).isNone) = none)
    (hv : (buildDKIMHeader tags raw).get_required_tag "v" = "1")
    (hi : ∀ u, (buildDKIMHeader tags raw).get_tag "i" = some u →
        strEndsWith u ((buildDKIMHeader tags raw).get_required_tag "d") = true) :
    validate_header_tags now tags raw = checkFromSigned now (buildDKIMHeader tags raw) := by
  unfold validate_header_tags
  rw [hreq]
  simp only [hv, ne_eq, not_true_eq_false, if_false, ite_false]
  cases hiv : (buildDKIMHeader tags raw).get_tag "i" with
  | none => rfl
  | some u =>
    simp only
    rw [hi u hiv]
    simp

/-- C3 counterexample: for the header value
`v=1; a=rsa-sha256; d=example.net; s=b; i=foo@EXAMPLE.NET; h=From; bh=x; b=y`
the domain part of `i=` (EXAMPLE.NET) equals the `d=` value case-insensitively
(so it is a case-insensitive suffix of it, and the claim predicts no error),
yet `validate_header` returns DomainMismatch: the code compares the whole raw
`i=` value with `ends_with`, case-sensitively. -/
theorem c3_counterexample :
    validate_header 0
        "v=1; a=rsa-sha256; d=example.net; s=b; i=foo@EXAMPLE.NET; h=From; bh=x; b=y" =
      .error .DomainMismatch
    ∧ strEndsWith (lowerStr "EXAMPLE.NET") (lowerStr "example.net") = true := by
  exact ⟨by rfl, by rfl⟩

/-- C3 amended: for a tag list passing the required-tag and version checks
and carrying an `i=` tag with value `u`, `validate_header` returns
DomainMismatch exactly when the raw `i=` value does not end with the raw
`d=` value (whole string, case-sensitive byte comparison, not restricted to
the domain part of `i=`). -/
theorem c3_domain_mismatch (now : Int) (tags : List Tag) (raw : String) (u : String)
    (hreq : REQUIRED_TAGS.find? (fun r => (tags.find? (fun t => t.name = r)).isNone) = none)
    (hv : (buildDKIMHeader tags raw).get_required_tag "v" = "1")
    (hi : (buildDKIMHeader tags raw).get_tag "i" = some u) :
    validate_header_tags now tags raw = .error .DomainMismatch ↔
      strEndsWith u ((buildDKIMHeader tags raw).get_required_tag "d") = false := by
  unfold validate_header_tags
  rw [hreq]
  simp only [hv, ne_eq, not_true_eq_false, if_false, ite_false, hi]
  by_cases he : strEndsWith u ((buildDKIMHeader tags raw).get_required_tag "d") = true
  · simp only [he, not_true_eq_false, if_false, ite_false]
    constructor
    · intro h
      rcases checkFromSigned_res now (buildDKIMHeader tags raw) with hc | hc | hc | hc <;>
        simp [hc] at h
    · intro h
      exact absurd h (by simp)
  · rw [Bool.not_eq_true] at he
    simp only [he, Bool.false_eq_true, not_false_eq_true, if_true, ite_true]

/-- C7: for a tag list passing the required-tag, version and identity checks,
`validate_header` returns FromFieldNotSigned exactly when the `h=` value,
split on `:`, contains no entry equal to `from` case-insensitively. -/
theorem c7_from_field_not_signed (now : Int) (tags : List Tag) (raw : String)
    (hreq : REQUIRED_TAGS.find? (fun r => (tags.find? (fun t => t.name = r)).isNone) = none)
    (hv : (buildDKIMHeader tags raw).get_required_tag "v" = "1")
    (hi : ∀ u, (buildDKIMHeader tags raw).get_tag "i" = some u →
        strEndsWith u ((buildDKIMHeader tags raw).get_required_tag "d") = true) :
    validate_header_tags now tags raw = .error .FromFieldNotSigned ↔
      (((splitOnChar ':' ((buildDKIMHeader tags raw).get_required_tag "h").toList).map
          (fun cs => lowerStr (String.mk cs))).contains "from") = false := by
  rw [validate_header_tags_reduces now tags raw hreq hv hi]
  unfold checkFromSigned
  by_cases hf : (((splitOnChar ':'
      ((buildDKIMHeader tags raw).get_required_tag "h").toList).map
      (fun cs => lowerStr (String.mk cs))).contains "from") = true
  · simp only [hf, not_true_eq_false, if_false, ite_false]
    constructor
    · intro h
      rcases checkQueryMethod_res now (buildDKIMHeader tags raw) with hc | hc | hc <;>
        simp [hc] at h
    · intro h
      exact absurd h (by simp)
  · rw [Bool.not_eq_true] at hf
    simp only [hf, Bool.false_eq_true, not_false_eq_true, if_true, ite_true]

/-- C4: for a validated header carrying `x=` denoting (in-range) Unix time
xv, the result is SignatureExpired exactly when the current instant is later
than xv plus the 15-minute drift; within the drift the header is accepted. -/
theorem c4_expiration (now : Int) (tags : List Tag) (raw : String) (xs : String) (xv : Int)
    (hreq : REQUIRED_TAGS.find? (fun r => (tags.find? (fun t => t.name = r)).isNone) = none)
    (hv : (buildDKIMHeader tags raw).get_required_tag "v" = "1")
    (hi : ∀ u, (buildDKIMHeader tags raw).get_tag "i" = some u →
        strEndsWith u ((buildDKIMHeader tags raw).get_required_tag "d") = true)
    (hfrom : (((splitOnChar ':' ((buildDKIMHeader tags raw).get_required_tag "h").toList).map
        (fun cs => lowerStr (String.mk cs))).contains "from") = true)
    (hq : ∀ q, (buildDKIMHeader tags raw).get_tag "q" = some q → q = "dns/txt")
    (hx : (buildDKIMHeader tags raw).get_tag "x" = some xs)
    (hp : parseI64 xs = some xv)
    (hr : timestampInRange xv = true) :
    validate_header_tags now tags raw =
      if now > (xv + 60 * SIGN_EXPIRATION_DRIFT_MINS) * 1000000000 then
        .error .SignatureExpired
      else .ok (buildDKIMHeader tags raw) := by
  rw [validate_header_tags_reduces now tags raw hreq hv hi]
  unfold checkFromSigned
  simp only [hfrom, not_true_eq_false, if_false, ite_false]
  unfold checkQueryMethod
  have hqred : ∀ r, (match (buildDKIMHeader tags raw).get_tag "q" with
      | some q => if q ≠ "dns/txt" then Except.error DKIMError.UnsupportedQueryMethod
                  else checkExpiration now (buildDKIMHeader tags raw)
      | none => checkExpiration now (buildDKIMHeader tags raw)) = r ↔
      checkExpiration now (buildDKIMHeader tags raw) = r := by
    intro r
    cases hqv : (buildDKIMHeader tags raw).get_tag "q" with
    | none => exact Iff.rfl
    | some q =>
      rw [hq q hqv]
      simp
  rw [hqred]
  unfold checkExpiration
  rw [hx]
  simp only [hp, Option.getD_some, hr, not_true_eq_false, if_false, ite_false]

/-- C10: for a validated header whose `x=` value does not parse as a decimal
64-bit integer, the expiration is treated as Unix time 0: the result is
SignatureExpired whenever the current instant is more than 15 minutes
(900 seconds) past the Unix epoch, and Ok otherwise. -/
theorem c10_unparsable_expiration (now : Int) (tags : List Tag) (raw : String) (xs : String)
    (hreq : REQUIRED_TAGS.find? (fun r => (tags.find? (fun t => t.name = r)).isNone) = none)
    (hv : (buildDKIMHeader tags raw).get_required_tag "v" = "1")
    (hi : ∀ u, (buildDKIMHeader tags raw).get_tag "i" = some u →
        strEndsWith u ((buildDKIMHeader tags raw).get_required_tag "d") = true)
    (hfrom : (((splitOnChar ':' ((buildDKIMHeader tags raw).get_required_tag "h").toList).map
        (fun cs => lowerStr (String.mk cs))).contains "from") = true)
    (hq : ∀ q, (buildDKIMHeader tags raw).get_tag "q" = some q → q = "dns/txt")
    (hx : (buildDKIMHeader tags raw).get_tag "x" = some xs)
    (hp : parseI64 xs = none) :
    (now > 900 * 1000000000 →
      validate_header_tags now tags raw = .error .SignatureExpired)
    ∧ (¬ now > 900 * 1000000000 →
      validate_header_tags now tags raw = .ok (buildDKIMHeader tags raw)) := by
  have hred : validate_header_tags now tags raw =
      if now > ((0 : Int) + 60 * SIGN_EXPIRATION_DRIFT_MINS) * 1000000000 then
        Except.error DKIMError.SignatureExpired
      else Except.ok (buildDKIMHeader tags raw) := by
    rw [validate_header_tags_reduces now tags raw hreq hv hi]
    unfold checkFromSigned
    simp only [hfrom, not_true_eq_false, if_false, ite_false]
    unfold checkQueryMethod
    have hqred : ∀ r, (match (buildDKIMHeader tags raw).get_tag "q" with
        | some q => if q ≠ "dns/txt" then Except.error DKIMError.UnsupportedQueryMethod
                    else checkExpiration now (buildDKIMHeader tags raw)
        | none => checkExpiration now (buildDKIMHeader tags raw)) = r ↔
        checkExpiration now (buildDKIMHeader tags raw) = r := by
      intro r
      cases hqv : (buildDKIMHeader tags raw).get_tag "q" with
      | none => exact Iff.rfl
      | some q =>
        rw [hq q hqv]
        simp
    rw [hqred]
    unfold checkExpiration
    rw [hx]
    simp only [hp, Option.getD_none]
    norm_num [timestampInRange]
  have harith : ((0 : Int) + 60 * SIGN_EXPIRATION_DRIFT_MINS) * 1000000000 =
      (900 * 1000000000 : Int) := by norm_num [SIGN_EXPIRATION_DRIFT_MINS]
  rw [hred, harith]
  constructor
  · intro h
    rw [if_pos h]
  · intro h
    rw [if_neg h]

/-- C8: the DKIMHeader produced by `validate_header` keeps the raw
header-value bytes exactly as received, its tag map has pairwise distinct
keys, and every tag name maps to the value of its last occurrence in the
parsed tag list. -/
theorem c8_last_occurrence_wins (now : Int) (tags : List Tag) (raw : String) (h : DKIMHeader)
    (hok : validate_header_tags now tags raw = .ok h) :
    h.raw_bytes = raw
    ∧ (∀ n, h.get_tag n = lastTagValue tags n)
    ∧ (h.tags.map Prod.fst).Nodup := by
  have hh : h = buildDKIMHeader tags raw := by
    unfold validate_header_tags at hok
    cases hfind : REQUIRED_TAGS.find?
        (fun r => (tags.find? (fun t => t.name = r)).isNone) with
    | some r => rw [hfind] at hok; exact absurd hok (by simp)
    | none =>
      rw [hfind] at hok
      simp only at hok
      split at hok
      · exact absurd hok (by simp)
      · have hfs : ∀ hdr, checkFromSigned now hdr = .ok h → h = hdr := by
          intro hdr hc
          rcases checkFromSigned_res now hdr with he | he | he | he <;> rw [he] at hc <;>
            first
            | (exact (Except.ok.inj hc).symm)
            | (exact absurd hc (by simp))
        split at hok
        · split at hok
          · exact absurd hok (by simp)
          · exact hfs _ hok
        · exact hfs _ hok
  subst hh
  refine ⟨rfl, ?_, nodup_keys_buildDKIMHeader tags raw⟩
  intro n
  exact get_tag_buildDKIMHeader tags raw n

/-- Tags of the source's own domain-mismatch test
(`test_validate_header_domain_mismatch`). -/
def c3Tags : List Tag :=
  [⟨"v", "1"⟩, ⟨"a", "rsa-sha256"⟩, ⟨"d", "example.net"⟩, ⟨"s", "brisbane"⟩,
   ⟨"i", "foo@hein.com"⟩, ⟨"h", "headers"⟩, ⟨"bh", "hash"⟩, ⟨"b", "hash"⟩]

/-- Closed instantiation of C3 (amended): `i=foo@hein.com` does not end with
`d=example.net`, so validation fails with DomainMismatch. -/
theorem c3_domain_mismatch_witness :
    validate_header_tags 0 c3Tags "r" = .error .DomainMismatch :=
  (c3_domain_mismatch 0 c3Tags "r" "foo@hein.com" (by rfl) (by rfl) (by rfl)).mpr (by rfl)

/-- Tags of the spec's scenario 3 (`h=` without `from`). -/
def c7Tags : List Tag :=
  [⟨"v", "1"⟩, ⟨"a", "rsa-sha256"⟩, ⟨"d", "x.net"⟩, ⟨"s", "b"⟩,
   ⟨"i", "foo@x.net"⟩, ⟨"h", "Subject:A:B"⟩, ⟨"bh", "zz"⟩, ⟨"b", "zz"⟩]

/-- Closed instantiation of C7: `h=Subject:A:B` yields FromFieldNotSigned. -/
theorem c7_from_field_not_signed_witness :
    validate_header_tags 0 c7Tags "r" = .error .FromFieldNotSigned :=
  (c7_from_field_not_signed 0 c7Tags "r" (by rfl) (by rfl)
    (by
      intro u hu
      rw [show (buildDKIMHeader c7Tags "r").get_tag "i" = some "foo@x.net" from rfl] at hu
      injection hu with h2
      rw [← h2]
      rfl)).mpr (by rfl)

/-- Tags carrying `x=9999`. -/
def c4Tags : List Tag :=
  [⟨"v", "1"⟩, ⟨"a", "rsa-sha256"⟩, ⟨"d", "example.net"⟩, ⟨"s", "b"⟩,
   ⟨"h", "From:B"⟩, ⟨"bh", "x"⟩, ⟨"b", "y"⟩, ⟨"x", "9999"⟩]

/-- Closed instantiation of C4: with `x=9999`, verification at 12000 s
(more than 15 minutes past it) is SignatureExpired, while at 10000 s
(past it, but within the 15-minute drift) the header is accepted. -/
theorem c4_expiration_witness :
    validate_header_tags (12000 * 1000000000) c4Tags "r" = .error .SignatureExpired
    ∧ validate_header_tags (10000 * 1000000000) c4Tags "r" =
        .ok (buildDKIMHeader c4Tags "r") := by
  have hno : ∀ u, (buildDKIMHeader c4Tags "r").get_tag "i" = some u →
      strEndsWith u ((buildDKIMHeader c4Tags "r").get_required_tag "d") = true := by
    intro u hu
    rw [show (buildDKIMHeader c4Tags "r").get_tag "i" = none from rfl] at hu
    exact Option.noConfusion hu
  have hq : ∀ q, (buildDKIMHeader c4Tags "r").get_tag "q" = some q → q = "dns/txt" := by
    intro q hu
    rw [show (buildDKIMHeader c4Tags "r").get_tag "q" = none from rfl] at hu
    exact Option.noConfusion hu
  constructor
  · rw [c4_expiration (12000 * 1000000000) c4Tags "r" "9999" 9999 (by rfl) (by rfl) hno
      (by rfl) hq (by rfl) (by rfl) (by rfl)]
    norm_num [SIGN_EXPIRATION_DRIFT_MINS]
  · rw [c4_expiration (10000 * 1000000000) c4Tags "r" "9999" 9999 (by rfl) (by rfl) hno
      (by rfl) hq (by rfl) (by rfl) (by rfl)]
    norm_num [SIGN_EXPIRATION_DRIFT_MINS]

/-- Tags whose `x=` value is not a decimal integer. -/
def c10Tags : List Tag :=
  [⟨"v", "1"⟩, ⟨"a", "rsa-sha256"⟩, ⟨"d", "example.net"⟩, ⟨"s", "b"⟩,
   ⟨"h", "from"⟩, ⟨"bh", "x"⟩, ⟨"b", "y"⟩, ⟨"x", "bogus"⟩]

/-- Closed instantiation of C10: an unparsable `x=` expires as soon as the
clock is more than 15 minutes past the epoch. -/
theorem c10_unparsable_expiration_witness :
    validate_header_tags (1000 * 1000000000) c10Tags "r" = .error .SignatureExpired := by
  have hno : ∀ u, (buildDKIMHeader c10Tags "r").get_tag "i" = some u →
      strEndsWith u ((buildDKIMHeader c10Tags "r").get_required_tag "d") = true := by
    intro u hu
    rw [show (buildDKIMHeader c10Tags "r").get_tag "i" = none from rfl] at hu
    exact Option.noConfusion hu
  have hq : ∀ q, (buildDKIMHeader c10Tags "r").get_tag "q" = some q → q = "dns/txt" := by
    intro q hu
    rw [show (buildDKIMHeader c10Tags "r").get_tag "q" = none from rfl] at hu
    exact Option.noConfusion hu
  exact (c10_unparsable_expiration (1000 * 1000000000) c10Tags "r" "bogus" (by rfl)
    (by rfl) hno (by rfl) hq (by rfl) (by rfl)).1 (by norm_num)

/-- A tag list in which `a=` occurs twice. -/
def c8Tags : List Tag :=
  [⟨"v", "1"⟩, ⟨"a", "rsa-sha256"⟩, ⟨"d", "d.com"⟩, ⟨"s", "s"⟩,
   ⟨"h", "from"⟩, ⟨"bh", "x"⟩, ⟨"b", "y"⟩, ⟨"a", "ed25519-sha256"⟩]

/-- Closed instantiation of C8: the duplicated `a=` maps to its last
occurrence and the raw bytes are kept verbatim. -/
theorem c8_last_occurrence_wins_witness :
    (buildDKIMHeader c8Tags "raw").get_tag "a" = some "ed25519-sha256"
    ∧ (buildDKIMHeader c8Tags "raw").raw_bytes = "raw" := by
  have h := c8_last_occurrence_wins 0 c8Tags "raw" (buildDKIMHeader c8Tags "raw") (by rfl)
  exact ⟨by rw [h.2.1 "a"]; rfl, h.1⟩

/-- C9: `SignerBuilder::build` returns BuilderError whenever any of the
private key, signed headers, selector, logger, or signing domain is unset,
and succeeds when all five are set; `with_signed_headers` returns
BuilderError exactly when the supplied list has no case-insensitive `from`,
and succeeds otherwise. -/
theorem c9_builder_errors :
    (∀ b : SignerBuilder,
      (∃ s, b.build = .error (.BuilderError s)) ↔
        (b.private_key = none ∨ b.signed_headers = none ∨ b.selector = none ∨
         b.logger = none ∨ b.signing_domain = none))
    ∧ (∀ b : SignerBuilder,
        b.private_key.isSome = true → b.signed_headers.isSome = true →
        b.selector.isSome = true → b.logger.isSome = true →
        b.signing_domain.isSome = true → ∃ s, b.build = .ok s)
    ∧ (∀ (b : SignerBuilder) (headers : List String),
        (∃ s, b.with_signed_headers headers = .error (.BuilderError s)) ↔
          (headers.find? (fun h => lowerStr h = "from")).isNone = true)
    ∧ (∀ (b : SignerBuilder) (headers : List String),
        (∃ h ∈ headers, lowerStr h = "from") →
          ∃ b2, b.with_signed_headers headers = .ok b2) := by
  refine ⟨?_, ?_, ?_, ?_⟩
  · rintro ⟨sh, pk, sel, sd, tm, hc, bc, lg, ex⟩
    cases pk with
    | none => simp [SignerBuilder.build]
    | some key =>
      cases key <;> cases sh <;> cases sel <;> cases lg <;> cases sd <;>
        simp [SignerBuilder.build]
  · rintro ⟨sh, pk, sel, sd, tm, hc, bc, lg, ex⟩ h1 h2 h3 h4 h5
    cases pk with
    | none => simp at h1
    | some key =>
      cases sh with
      | none => simp at h2
      | some shv =>
        cases sel with
        | none => simp at h3
        | some selv =>
          cases lg with
          | none => simp at h4
          | some lgv =>
            cases sd with
            | none => simp at h5
            | some sdv => cases key <;> exact ⟨_, rfl⟩
  · intro b headers
    unfold SignerBuilder.with_signed_headers
    by_cases hf : (headers.find? (fun h => lowerStr h = "from")).isNone = true
    · rw [if_pos hf]
      simp [hf]
    · rw [if_neg hf]
      constructor
      · rintro ⟨s, hs⟩
        exact absurd hs (by simp)
      · intro h
        exact absurd h hf
  · intro b headers ⟨h, hmem, hfrom⟩
    unfold SignerBuilder.with_signed_headers
    have : ¬ (headers.find? (fun h => lowerStr h = "from")).isNone = true := by
      rw [Option.isNone_iff_eq_none]
      intro hn
      have := List.find?_eq_none.mp hn h hmem
      simp [hfrom] at this
    rw [if_neg this]
    exact ⟨_, rfl⟩

/-- A builder with all five required fields set. -/
def c9Builder : SignerBuilder :=
  { SignerBuilder.new with
      private_key := some (.Rsa 0), signed_headers := some ["From", "Subject"],
      selector := some "s20", signing_domain := some "example.com", logger := some () }

/-- Closed instantiation of C9: the fully configured builder builds. -/
theorem c9_builder_errors_witness : ∃ s, c9Builder.build = .ok s :=
  c9_builder_errors.2.1 c9Builder (by rfl) (by rfl) (by rfl) (by rfl) (by rfl)
